import Mathlib

/-!
A shallow embedding of the cooperative-overtaking platooning code
(`c2x.py`, `state.py`, `direction.py`, `parameter.py`, `platoon_vehicle.py`,
`platoon_leader.py`, `platoon_follower.py`).

Modelling conventions:
* Python floats are modelled by `ℚ`; `float('inf')` results are modelled by
  `⊤ : WithTop ℚ` where a function can produce infinity.
* Simulation-environment readings (the TraCI wrappers in `util.py`: speeds,
  lateral offsets, lane indices, neighbour presence, centredness, ...) are
  external sensor facts; each tick consumes them from an explicit `Env`
  record.  Predicates whose truth value is a function of such external road
  state alone (`should_overtake`'s boolean verdict, `alpha_area_free`,
  `beta_area_free`, `front_or_rear_member_not_following`) enter the model as
  per-tick oracle booleans in `Env`.
* The random per-message delivery delay (`np.random.exponential`) is an
  arbitrary `Nat` parameter supplied by the caller / environment.
* Python `list.remove` wrapped in `try/except ValueError` is modelled by
  `List.erase` (remove first occurrence, no-op when absent).
-/

namespace Coop

-- `parameter.py` constants used by the modelled code.
namespace par

def LANE_WIDTH : ℚ := 32/10
def LANE_OFFSET_MIN : ℚ := 1/2
def OSCILLATION_MOD : ℚ := 1/100
def MAX_NOT_DETECTED : Nat := 3
def MAX_BACKOFF : Nat := 8
def MIN_BACKOFF : Nat := 5
def MAX_TIMER : Int := 20
def TRUCK_MAX_LENGTH : ℚ := 75/4
def R_REACT : ℚ := 1
def R_TIME_GAP : ℚ := 4/5
def TRUCK_MIN_GAP : ℚ := 50
def TRUCK_HEADWAY : ℚ := 9/5
def TIME_STAY_IN_ORIGINAL_LANE : ℚ := 10

end par

/-- `direction.py`: `Direction` enum (LEFT = 1, RIGHT = -1, SAME = 0). -/
inductive Direction where
  | LEFT
  | RIGHT
  | SAME
deriving DecidableEq, Repr

namespace Direction

/-- The `value` of the Python enum member. -/
def value : Direction → Int
  | .LEFT => 1
  | .RIGHT => -1
  | .SAME => 0

/-- `Direction.flip`. -/
def flip : Direction → Direction
  | .LEFT => .RIGHT
  | _ => .LEFT

end Direction

/-- `state.py`: the `State` enum, including the `R_`-prefixed pseudo states
used to distinguish right-maneuver visits in the recorded metrics. -/
inductive State where
  | NO_STATE
  | IDLE
  | VEHICLE_AHEAD
  | PASSING
  | OVERTAKING_COMPLETE
  | ASSERT_OWN_AREAS
  | REQUEST_SENSOR_DATA
  | WAIT_FOR_RESPONSES
  | ASSERT_MANEUVER_AREA
  | LANE_CHANGE_SAFE
  | CHANGING_LANE
  | ABORT
  | CHANGING_BACK
  | LANE_CHANGE_ABORTED
  | LANE_CHANGE_COMPLETE
  | WAIT_FOR_DECISION
  | IN_ORIGINAL_LANE
  | IN_OVERTAKING_LANE
  | LANE_CHANGED
  | R_IDLE
  | R_VEHICLE_AHEAD
  | R_PASSING
  | R_OVERTAKING_COMPLETE
  | R_ASSERT_OWN_AREAS
  | R_REQUEST_SENSOR_DATA
  | R_WAIT_FOR_RESPONSES
  | R_ASSERT_MANEUVER_AREA
  | R_LANE_CHANGE_SAFE
  | R_CHANGING_LANE
  | R_ABORT
  | R_CHANGING_BACK
  | R_LANE_CHANGE_ABORTED
  | R_LANE_CHANGE_COMPLETE
  | R_WAIT_FOR_DECISION
  | R_IN_ORIGINAL_LANE
  | R_IN_OVERTAKING_LANE
  | R_LANE_CHANGED
deriving DecidableEq, Repr, Fintype

namespace State

/-- Python `State['R_' + state.name]`: the `R_`-prefixed pseudo-state variant
of a state, `none` exactly when no such enum member exists (Python would
raise `KeyError` there). -/
def rVariant : State → Option State
  | .IDLE => some .R_IDLE
  | .VEHICLE_AHEAD => some .R_VEHICLE_AHEAD
  | .PASSING => some .R_PASSING
  | .OVERTAKING_COMPLETE => some .R_OVERTAKING_COMPLETE
  | .ASSERT_OWN_AREAS => some .R_ASSERT_OWN_AREAS
  | .REQUEST_SENSOR_DATA => some .R_REQUEST_SENSOR_DATA
  | .WAIT_FOR_RESPONSES => some .R_WAIT_FOR_RESPONSES
  | .ASSERT_MANEUVER_AREA => some .R_ASSERT_MANEUVER_AREA
  | .LANE_CHANGE_SAFE => some .R_LANE_CHANGE_SAFE
  | .CHANGING_LANE => some .R_CHANGING_LANE
  | .ABORT => some .R_ABORT
  | .CHANGING_BACK => some .R_CHANGING_BACK
  | .LANE_CHANGE_ABORTED => some .R_LANE_CHANGE_ABORTED
  | .LANE_CHANGE_COMPLETE => some .R_LANE_CHANGE_COMPLETE
  | .WAIT_FOR_DECISION => some .R_WAIT_FOR_DECISION
  | .IN_ORIGINAL_LANE => some .R_IN_ORIGINAL_LANE
  | .IN_OVERTAKING_LANE => some .R_IN_OVERTAKING_LANE
  | .LANE_CHANGED => some .R_LANE_CHANGED
  | _ => none

end State

/-- Modelled from the spec: `message.py` (the `Message` kind enum) is not under
`src/`; the spec (§4.3, §4.4) names the six message kinds exchanged by the
protocol, which are exactly the members the rest of the code references. -/
inductive Message where
  | REQ_SENSOR_DATA
  | RESP_SENSOR_DATA
  | BEGIN_LANE_CHANGE
  | ABORT
  | ABORT_COMPLETE
  | LANE_CHANGE_COMPLETE
deriving DecidableEq, Repr

/-- Message payload (`data` argument of `C2X.send`).  The program sends either
`None`, `{'direction': ...}` (requests/commands) or `{'own-area-free': ...}`
(sensor-data responses); both possible fields are carried. -/
structure MsgData where
  direction : Direction
  ownAreaFree : Bool
deriving DecidableEq, Repr

/-- One entry of `C2X.queue` (`c2x.py`, `send`): a message envelope. -/
structure Envelope where
  eid : Nat
  src : String
  dest : String
  msg : Message
  data : MsgData
  recvMinStep : Nat
deriving DecidableEq, Repr

/-- `c2x.py`: state of the `C2X` messaging system (`queue`, the `delay` log
and the `id` counter, which the source never increments). -/
structure C2X where
  queue : List Envelope
  delay : List Nat
  cid : Nat
deriving DecidableEq, Repr

namespace C2X

/-- `C2X.send`: enqueues a message from `src` to `dest`; `rec_step` is the
sampled delivery delay (`np.random.exponential` truncated to an integer,
supplied here by the environment), and the envelope becomes deliverable at
`receive-min-step = step + rec_step`. -/
def send (c : C2X) (src dest : String) (msg : Message) (data : MsgData)
    (step : Nat) (rec_step : Nat) : C2X :=
  { c with
    delay := c.delay ++ [rec_step]
    queue := c.queue ++ [{ eid := c.cid, src := src, dest := dest, msg := msg,
                           data := data, recvMinStep := step + rec_step }] }

/-- Visibility condition of `C2X.receive`:
`msg['dest'] == dest and msg['receive-min-step'] <= step`. -/
def visible (dest : String) (step : Nat) (e : Envelope) : Bool :=
  e.dest = dest && e.recvMinStep ≤ step

/-- `C2X.receive`: returns all messages in the queue with destination `dest`
that are deliverable at `step`, and removes exactly those from the queue
(the source keeps a message iff `dest` differs or
`receive-min-step > step`). -/
def receive (c : C2X) (dest : String) (step : Nat) : List Envelope × C2X :=
  (c.queue.filter (fun e => visible dest step e),
   { c with queue :=
       c.queue.filter (fun e =>
         !(e.dest = dest) || ((e.dest = dest) && step < e.recvMinStep)) })

end C2X

/-- Rationals extended with a positive infinity (`float('inf')` results). -/
inductive QInf where
  | inf
  | val (x : ℚ)
deriving DecidableEq, Repr

namespace QInf

/-- Python `result = max(result, g)` on a possibly-infinite float. -/
def maxVal : QInf → ℚ → QInf
  | .inf, _ => .inf
  | .val x, g => .val (max x g)

/-- Python `result *= c` on a possibly-infinite float (`c > 0` in all uses). -/
def scale : QInf → ℚ → QInf
  | .inf, _ => .inf
  | .val x, c => .val (x * c)

end QInf

/-- Default payload for `send_message(dest, msg)` calls that pass `data=None`
(the filler field values are never read for such messages). -/
def MsgData.nodata : MsgData := ⟨Direction.LEFT, true⟩

/-- Payload `{'direction': d}`. -/
def MsgData.dirData (d : Direction) : MsgData := ⟨d, true⟩

/-- Payload `{'own-area-free': b}`. -/
def MsgData.areaData (b : Bool) : MsgData := ⟨Direction.LEFT, b⟩

/-- Per-tick readings of the external traffic simulator (the `util.py`
TraCI wrappers), plus the boolean verdicts of the sensor-dependent
predicates (see the module comment) and the sampled message delay. -/
structure Env where
  lat_offset : ℚ          -- util.get_lateral_offset(v_id)
  lane_index : Int        -- util.get_lane_index(v_id)
  speed : ℚ               -- util.get_speed(v_id) (as recorded, rounded)
  time : ℚ                -- util.get_time()
  lat_speed_zero : Bool   -- util.get_lateral_speed(v_id) == 0
  is_centered : Bool      -- util.is_centered(v_id)
  alpha_free : Bool       -- verdict of alpha_area_free()
  beta_free : Bool        -- verdict of beta_area_free()
  member_not_following : Bool -- verdict of front_or_rear_member_not_following()
  leader_detected : Bool  -- util.get_leader(v_id) is not None (state "idle")
  vehicles_ahead : Bool   -- get_neighbor(SAME, front, 'all') nonempty
  should_overtake : Bool  -- verdict of should_overtake(vehicles_ahead)
  ot_time : ℚ             -- predicted overtaking time from should_overtake
  vehicles_fr : Bool      -- get_neighbor(RIGHT, front, 'all') nonempty
  should_overtake_fr : Bool -- verdict of should_overtake(vehicles_fr)
  should_overtake_cl : Bool -- mid-lane-change re-validation verdict
  ot_vehicles_none : Bool -- ot_vehicles is None (abort-message selection)
  delay : Nat             -- sampled delivery delay for messages sent this tick
deriving DecidableEq, Repr

/-- Mutable state of `PlatoonVehicle`, together with the extra fields of
`PlatoonLeader` and `PlatoonFollower` (one record serves both roles; each
role's tick function only touches its own fields).  Omitted source fields
that the modelled code never reads: `rec_data[MIN_GAP]`, the leader's
`max_speed`/`max_accel`/`v_desired` (consumed only inside the oracle
predicates), the follower's `front`. -/
structure PlatoonVehicle where
  v_id : String
  step : Nat
  timer : Int
  state : State
  direction : Direction
  in_lane_change : Bool
  begin_lane_change : Bool
  in_change_back : Bool
  begin_change_back : Bool
  msg_queue : List Envelope
  states_visited : List State   -- rec_data[Key.STATES_VISITED]
  ot_time_rec : List ℚ          -- rec_data[Key.OT_TIME]
  lanes_visited : List Int      -- rec_data[Key.LANES_VISITED]
  speed_min : Option ℚ          -- rec_data[Key.SPEED_MIN]; none = float('inf')
  speed_max : Option ℚ          -- rec_data[Key.SPEED_MAX]; none = float('-inf')
  c2x : C2X
  lc_from : Int
  lc_to : Int
  in_new_lane : Bool
  lane_offset_last_step : ℚ
  abort_message : String
  -- PlatoonLeader extra fields
  backoff : Nat
  follower : List String
  waiting_for_reply : List String
  safety_data : List MsgData
  ot_predicted : ℚ
  ot_started : ℚ                -- simulation time; -1 = no attempt running
  detection_threshold : Nat
  -- PlatoonFollower extra field
  leader : String
deriving DecidableEq, Repr

namespace PlatoonVehicle

/-- `PlatoonVehicle.set_state`: sets the state and appends one entry to the
visited-states metric — the state itself when the maneuver direction is LEFT
or the state is PASSING / OVERTAKING_COMPLETE, else its `R_` pseudo-variant.
(The `.getD st` fallback corresponds to the `KeyError` Python would raise for
a state without an `R_` variant; no call site passes such a state.) -/
def set_state (s : PlatoonVehicle) (st : State) : PlatoonVehicle :=
  { s with
    state := st
    states_visited := s.states_visited ++
      [if s.direction = Direction.LEFT ∨ st = State.PASSING ∨
          st = State.OVERTAKING_COMPLETE
       then st else st.rVariant.getD st] }

/-- `PlatoonVehicle.set_timer`. -/
def set_timer (s : PlatoonVehicle) (value : Int) : PlatoonVehicle :=
  { s with timer := value }

/-- `PlatoonVehicle.decrement_timer`: reduce by 1 until it reaches 0. -/
def decrement_timer (s : PlatoonVehicle) : PlatoonVehicle :=
  if s.timer > 0 then { s with timer := s.timer - 1 } else s

/-- `PlatoonVehicle.detect_lane_crossing`: mark `in_new_lane` when the lateral
offset changes sign while its magnitude exceeds `par.LANE_OFFSET_MIN`, and
remember the current offset. -/
def detect_lane_crossing (e : Env) (s : PlatoonVehicle) : PlatoonVehicle :=
  let s' :=
    if |e.lat_offset| > par.LANE_OFFSET_MIN ∧
        s.lane_offset_last_step * e.lat_offset < 0
    then { s with in_new_lane := true } else s
  { s' with lane_offset_last_step := e.lat_offset }

/-- `PlatoonVehicle.record`: append the current lane when it differs from the
last recorded one, and update the running min/max speed. -/
def record (e : Env) (s : PlatoonVehicle) : PlatoonVehicle :=
  let lanes :=
    if s.lanes_visited.getLast? = some e.lane_index
    then s.lanes_visited else s.lanes_visited ++ [e.lane_index]
  let smin := match s.speed_min with
    | none => some e.speed
    | some m => if m > e.speed then some e.speed else some m
  let smax := match s.speed_max with
    | none => some e.speed
    | some m => if m < e.speed then some e.speed else some m
  { s with lanes_visited := lanes, speed_min := smin, speed_max := smax }

/-- `PlatoonVehicle.receive_messages`: pull all deliverable messages for this
vehicle from the channel into the local queue. -/
def receive_messages (s : PlatoonVehicle) : PlatoonVehicle :=
  let r := s.c2x.receive s.v_id s.step
  { s with msg_queue := s.msg_queue ++ r.1, c2x := r.2 }

/-- `PlatoonVehicle.get_messages_by_type`: all queued messages of the given
kind, removing them from the queue. -/
def get_messages_by_type (s : PlatoonVehicle) (m : Message) :
    List Envelope × PlatoonVehicle :=
  (s.msg_queue.filter (fun x => decide (x.msg = m)),
   { s with msg_queue := s.msg_queue.filter (fun x => decide (x.msg ≠ m)) })

/-- `PlatoonVehicle.send_message`: send via the C2X system (the delivery
delay is sampled by the channel; here it comes from the environment). -/
def send_message (s : PlatoonVehicle) (dest : String) (m : Message)
    (data : MsgData) (delay : Nat) : PlatoonVehicle :=
  { s with c2x := s.c2x.send s.v_id dest m data s.step delay }

/-- The `for f in self.follower: self.send_message(f, ...)` loops of the
leader: one message of kind `m` to every follower.  `send_message` only
touches the channel, so the loop is a pure channel update. -/
def broadcast (s : PlatoonVehicle) (m : Message) (data : MsgData)
    (delay : Nat) : PlatoonVehicle :=
  let c := s.follower.foldl
    (fun c f => c.send s.v_id f m data s.step delay) s.c2x
  { s with c2x := c }

/-- `PlatoonVehicle.next_step`: the shared per-tick prelude — increment the
step counter; detect lane crossing while mid lane-change or mid change-back;
record metrics; discard the local inbox, then pull newly deliverable channel
messages; decrement the timer. -/
def next_step (e : Env) (s : PlatoonVehicle) : PlatoonVehicle :=
  let s := { s with step := s.step + 1 }
  let s := if s.in_lane_change ∨ s.in_change_back
           then detect_lane_crossing e s else s
  let s := record e s
  let s := { s with msg_queue := [] }
  let s := receive_messages s
  decrement_timer s

/-- `PlatoonVehicle.safety_dist_platoon` (as a function of the vehicle's
`in_lane_change` flag and the sensor readings `util.get_tau`,
`util.get_speed`): `tau * v`, inflated by the oscillation margin while not in
a lane change. -/
def safety_dist_platoon (ilc : Bool) (tau v : ℚ) : ℚ :=
  let d := tau * v
  if !ilc then d * (1 + par.OSCILLATION_MOD) else d

/-- `PlatoonVehicle.d_min` (as a function of the vehicle's `direction` and
`in_lane_change` and the speeds `v_p = util.get_speed(self)`,
`v_r = util.get_speed(follower)`): the kinematic minimum rear gap. -/
def d_min (dir : Direction) (ilc : Bool) (v_p v_r a : ℚ) : QInf :=
  let result : QInf :=
    if v_r > v_p ∧ a < 0 then
      .val ((-1 / (2 * a)) * (v_p - v_r) ^ 2 + v_r * par.R_REACT +
        v_p * par.R_TIME_GAP)
    else if v_r ≤ v_p ∧ a ≤ 0 then
      .val (v_r * (par.R_REACT + par.R_TIME_GAP))
    else .inf
  let result := if dir = Direction.RIGHT
                then result.maxVal par.TRUCK_MIN_GAP else result
  if !ilc then result.scale (1 + par.OSCILLATION_MOD) else result

/-- `PlatoonVehicle.changing_lane` (the shared state-"changing lane"
mechanics). -/
def changing_lane (e : Env) (s : PlatoonVehicle) : PlatoonVehicle :=
  if s.begin_lane_change then
    -- begin lane change (exec_lane_change is a pure actuator command)
    { s with begin_lane_change := false, in_lane_change := true,
             in_new_lane := false, lc_from := e.lane_index,
             lc_to := e.lane_index + s.direction.value }
  else if s.in_lane_change then
    if !e.lat_speed_zero then
      -- handle disruptions during the lane change
      let s := if !e.alpha_free then
          { s with begin_change_back := true,
                   abort_message := "Front area occupied" } else s
      let s := if !e.beta_free then
          { s with begin_change_back := true,
                   abort_message := "Rear area occupied" } else s
      if e.member_not_following then
          { s with begin_change_back := true,
                   abort_message := "A member is not following laterally anymore" }
      else s
    else if s.in_new_lane ∧ e.is_centered then
      { s with lc_from := s.lc_to, in_lane_change := false }
    else s
  else s

/-- `PlatoonVehicle.lane_change_complete` (shared cleanup). -/
def lane_change_complete (s : PlatoonVehicle) : PlatoonVehicle :=
  { s with in_new_lane := false, direction := s.direction.flip }

/-- `PlatoonVehicle.changing_back` (the shared state-"changing back"
mechanics). -/
def changing_back (e : Env) (s : PlatoonVehicle) : PlatoonVehicle :=
  if s.begin_change_back then
    let d := s.direction.flip
    { s with begin_change_back := false, in_change_back := true,
             in_lane_change := false, direction := d,
             lc_from := e.lane_index,
             lc_to := if s.in_new_lane then e.lane_index + d.value
                      else e.lane_index,
             in_new_lane := !s.in_new_lane }
  else if s.in_change_back then
    if s.in_new_lane ∧ e.is_centered then
      { s with direction := s.direction.flip, in_change_back := false }
    else s
  else s

end PlatoonVehicle

/-- `platoon_leader.py`: module-level `safety_dist_slower`. -/
def safety_dist_slower (v_slower : ℚ) : ℚ :=
  max par.TRUCK_MIN_GAP (par.TRUCK_HEADWAY * v_slower)

namespace PlatoonLeader

/-- `PlatoonLeader.set_backoff_timer`: arm the timer with `2 ** backoff` and
increment the backoff exponent while strictly below `par.MAX_BACKOFF`. -/
def set_backoff_timer (s : PlatoonVehicle) : PlatoonVehicle :=
  let s := s.set_timer ((2 : Int) ^ s.backoff)
  if s.backoff < par.MAX_BACKOFF then { s with backoff := s.backoff + 1 } else s

/-- `PlatoonLeader.t_over` as a function of the vehicle's `direction` and
`in_lane_change` and the sensor readings: `tau = util.get_tau`,
`a_max = util.get_max_accel`, `v_p = util.get_speed`,
`lat_max = util.get_lateral_max_speed`,
`dist_to_orig = util.get_distance_to_original_lane`,
`platoon_len = platoon_length()`.  `sq` stands for the float
`sqrt((v_p - v_slower)**2 + 2*a_max*l_total)`; theorems that depend on its
value carry the corresponding hypotheses.  A `ZeroDivisionError` inside the
source's `try` block (a division by zero in either closed form) makes the
function return `float('inf')`, modelled by `.inf`. -/
def t_over (dir : Direction) (ilc : Bool)
    (tau a_max v_p lat_max dist_to_orig platoon_len sq : ℚ)
    (v_max_ot_lane v_slower dist_slower : ℚ) : QInf :=
  -- reduce dist_slower when changing to the original lane
  let dist_slower :=
    if dir = Direction.RIGHT then
      let t_lane_change :=
        dist_to_orig / lat_max + par.TIME_STAY_IN_ORIGINAL_LANE
      dist_slower - (v_p - v_slower) * t_lane_change
    else dist_slower
  -- already at most the safety distance away -> t_over = 0
  if dist_slower < PlatoonVehicle.safety_dist_platoon ilc tau v_p then .val 0
  else
    let l_total := dist_slower + par.TRUCK_MAX_LENGTH +
      safety_dist_slower v_slower + platoon_len
    let v_over := v_slower + sq
    let t : QInf :=
      if v_over ≤ v_max_ot_lane then
        if a_max = 0 then .inf
        else .val ((1 / a_max) * (v_slower - v_p + sq))
      else
        if v_max_ot_lane - v_slower = 0 ∨ 2 * a_max * l_total = 0 then .inf
        else .val ((l_total / (v_max_ot_lane - v_slower)) *
          (1 + (v_max_ot_lane - v_p) ^ 2 / (2 * a_max * l_total)))
    -- add the time needed for the lateral lane change
    match t with
    | .inf => .inf
    | .val x => .val (x + par.LANE_WIDTH / lat_max)

/-- `PlatoonLeader.idle`. -/
def idle (e : Env) (s : PlatoonVehicle) : PlatoonVehicle :=
  let s := { s with safety_data := [], msg_queue := [] }
  if e.leader_detected then
    ({ s with direction := Direction.LEFT, timer := 0 }).set_state
      State.VEHICLE_AHEAD
  else s

/-- `PlatoonLeader.vehicle_ahead` (the boolean verdict and predicted time of
`should_overtake` come from the environment oracle). -/
def vehicle_ahead (e : Env) (s : PlatoonVehicle) : PlatoonVehicle :=
  if !e.vehicles_ahead then
    ({ s with ot_started := -1 }).set_state State.IDLE
  else if s.timer = 0 then
    if e.should_overtake then
      let s := { s with ot_predicted := e.ot_time }
      let s := if s.direction = Direction.LEFT ∧ s.ot_started = -1
               then { s with ot_started := e.time } else s
      s.set_state State.ASSERT_OWN_AREAS
    else s
  else s

/-- `PlatoonLeader.passing`. -/
def passing (e : Env) (s : PlatoonVehicle) : PlatoonVehicle :=
  let s := if s.ot_started ≠ -1 then
      { s with ot_time_rec := s.ot_time_rec ++ [e.time - s.ot_started],
               ot_started := -1 }
    else s
  if s.timer = 0 then
    if !e.vehicles_fr ∨ !e.should_overtake_fr then
      s.set_state State.ASSERT_OWN_AREAS
    else s
  else s

/-- `PlatoonLeader.assert_own_areas`. -/
def assert_own_areas (e : Env) (s : PlatoonVehicle) : PlatoonVehicle :=
  if e.alpha_free && e.beta_free then s.set_state State.REQUEST_SENSOR_DATA
  else s.set_state State.LANE_CHANGE_ABORTED

/-- `PlatoonLeader.request_sensor_data`.  (The source interleaves each send
with the `waiting_for_reply.append`; the net effect is identical.) -/
def request_sensor_data (e : Env) (s : PlatoonVehicle) : PlatoonVehicle :=
  let s := s.broadcast Message.REQ_SENSOR_DATA (MsgData.dirData s.direction)
    e.delay
  let s := { s with waiting_for_reply := s.waiting_for_reply ++ s.follower }
  (s.set_timer par.MAX_TIMER).set_state State.WAIT_FOR_RESPONSES

/-- `PlatoonLeader.wait_for_responses`.  The `try/except ValueError` around
`waiting_for_reply.remove` is modelled by `List.erase` (no-op when the
responder is not outstanding). -/
def wait_for_responses (s : PlatoonVehicle) : PlatoonVehicle :=
  if s.timer = 0 then
    ({ s with waiting_for_reply := [] }).set_state State.LANE_CHANGE_ABORTED
  else
    let p := s.get_messages_by_type Message.RESP_SENSOR_DATA
    let sd := p.2.safety_data ++ p.1.map (fun m => m.data)
    let w := p.1.foldl (fun w m => w.erase m.src) p.2.waiting_for_reply
    let s : PlatoonVehicle :=
      { p.2 with safety_data := sd, waiting_for_reply := w }
    if s.waiting_for_reply = [] then s.set_state State.ASSERT_MANEUVER_AREA
    else s

/-- `PlatoonLeader.assert_maneuver_area`: the while-pop loop drains
`safety_data` and the maneuver is safe iff no report said
`own-area-free is False`. -/
def assert_maneuver_area (s : PlatoonVehicle) : PlatoonVehicle :=
  let is_safe := s.safety_data.all (fun d => d.ownAreaFree)
  let s := { s with safety_data := [] }
  if is_safe then s.set_state State.LANE_CHANGE_SAFE
  else s.set_state State.LANE_CHANGE_ABORTED

/-- `PlatoonLeader.lane_change_aborted`. -/
def lane_change_aborted (s : PlatoonVehicle) : PlatoonVehicle :=
  let s := { s with in_new_lane := false }
  if s.direction = Direction.LEFT then
    (set_backoff_timer { s with ot_predicted := 0 }).set_state
      State.VEHICLE_AHEAD
  else
    (s.set_timer par.MAX_TIMER).set_state State.PASSING

/-- `PlatoonLeader.lane_change_safe`.  (The source `assert`s that
`waiting_for_reply` is empty here; the assertion is not modelled.) -/
def lane_change_safe (e : Env) (s : PlatoonVehicle) : PlatoonVehicle :=
  let s := { s with backoff := par.MIN_BACKOFF }
  let s := s.broadcast Message.BEGIN_LANE_CHANGE (MsgData.dirData s.direction)
    e.delay
  let s := { s with waiting_for_reply := s.waiting_for_reply ++ s.follower }
  ({ s with begin_lane_change := true }).set_state State.CHANGING_LANE

/-- `PlatoonLeader.handle_abort`. -/
def handle_abort (s : PlatoonVehicle) : PlatoonVehicle :=
  ({ s with waiting_for_reply := [] }).set_state State.ABORT

/-- `PlatoonLeader.changing_lane`: the leader wrapper around the shared
mechanics, with abort-message handling and the `detection_threshold`
debounce of the mid-maneuver `should_overtake` re-validation (its verdict
is the oracle `e.should_overtake_cl`).  The source's
`waiting_for_reply.remove` (no `try`) is modelled by `List.erase`. -/
def changing_lane (e : Env) (s : PlatoonVehicle) : PlatoonVehicle :=
  let p := s.get_messages_by_type Message.ABORT
  if p.1 ≠ [] then
    handle_abort { p.2 with begin_change_back := true,
                            abort_message := "Abort from follower received" }
  else
    let s := PlatoonVehicle.changing_lane e p.2
    let q := s.get_messages_by_type Message.LANE_CHANGE_COMPLETE
    let w := q.1.foldl (fun w m => w.erase m.src) q.2.waiting_for_reply
    let s : PlatoonVehicle := { q.2 with waiting_for_reply := w }
    if s.in_lane_change then
      let s :=
        if s.direction = Direction.LEFT then
          -- slower vehicle not passable anymore
          if !e.should_overtake_cl then
            let s : PlatoonVehicle :=
              { s with detection_threshold := s.detection_threshold + 1 }
            if s.detection_threshold > par.MAX_NOT_DETECTED then
              let am := if e.ot_vehicles_none
                then "Slower vehicle out of range"
                else "Overtaking not useful or possible anymore"
              { s with begin_change_back := true, abort_message := am }
            else s
          else { s with detection_threshold := 0 }
        else
          -- slower vehicle appeared during the lane change right
          if e.should_overtake_cl then
            let s : PlatoonVehicle :=
              { s with detection_threshold := s.detection_threshold + 1 }
            if s.detection_threshold > par.MAX_NOT_DETECTED then
              let am := "Overtaking useful and possible"
              { s with begin_change_back := true, abort_message := am }
            else s
          else { s with detection_threshold := 0 }
      if s.begin_change_back then handle_abort s else s
    else if s.waiting_for_reply = [] then
      s.set_state State.LANE_CHANGE_COMPLETE
    else s

/-- `PlatoonLeader.lane_change_complete`. -/
def lane_change_complete (e : Env) (s : PlatoonVehicle) : PlatoonVehicle :=
  let s := PlatoonVehicle.lane_change_complete s
  let s := { s with safety_data := [], timer := 0 }
  let s := s.broadcast Message.LANE_CHANGE_COMPLETE MsgData.nodata e.delay
  if s.direction = Direction.RIGHT then s.set_state State.PASSING
  else ({ s with ot_predicted := 0 }).set_state State.OVERTAKING_COMPLETE

/-- `PlatoonLeader.overtaking_complete`. -/
def overtaking_complete (s : PlatoonVehicle) : PlatoonVehicle :=
  s.set_state State.IDLE

/-- `PlatoonLeader.abort`. -/
def abort (e : Env) (s : PlatoonVehicle) : PlatoonVehicle :=
  let s := s.broadcast Message.ABORT (MsgData.dirData s.direction) e.delay
  let s := { s with waiting_for_reply := s.waiting_for_reply ++ s.follower }
  s.set_state State.CHANGING_BACK

/-- `PlatoonLeader.changing_back`. -/
def changing_back (e : Env) (s : PlatoonVehicle) : PlatoonVehicle :=
  let s := PlatoonVehicle.changing_back e s
  let q := s.get_messages_by_type Message.ABORT_COMPLETE
  let w := q.1.foldl (fun w m => w.erase m.src) q.2.waiting_for_reply
  let s : PlatoonVehicle := { q.2 with waiting_for_reply := w }
  if !s.in_change_back ∧ s.waiting_for_reply = [] then
    s.set_state State.LANE_CHANGE_ABORTED
  else s

/-- The `if self.state == ... elif ...` chain of `PlatoonLeader.next_step`
(states not listed leave the agent unchanged). -/
def dispatch (e : Env) (s : PlatoonVehicle) : PlatoonVehicle :=
  match s.state with
  | .IDLE => idle e s
  | .VEHICLE_AHEAD => vehicle_ahead e s
  | .PASSING => passing e s
  | .OVERTAKING_COMPLETE => overtaking_complete s
  | .ASSERT_OWN_AREAS => assert_own_areas e s
  | .REQUEST_SENSOR_DATA => request_sensor_data e s
  | .WAIT_FOR_RESPONSES => wait_for_responses s
  | .ASSERT_MANEUVER_AREA => assert_maneuver_area s
  | .LANE_CHANGE_ABORTED => lane_change_aborted s
  | .LANE_CHANGE_SAFE => lane_change_safe e s
  | .CHANGING_LANE => changing_lane e s
  | .LANE_CHANGE_COMPLETE => lane_change_complete e s
  | .ABORT => abort e s
  | .CHANGING_BACK => changing_back e s
  | _ => s

/-- `PlatoonLeader.next_step`: the shared per-tick prelude followed by the
dispatch on the current state. -/
def next_step (e : Env) (s : PlatoonVehicle) : PlatoonVehicle :=
  dispatch e (PlatoonVehicle.next_step e s)

end PlatoonLeader

namespace PlatoonFollower

/-- `PlatoonFollower.idle`. -/
def idle (e : Env) (s : PlatoonVehicle) : PlatoonVehicle :=
  let p := s.get_messages_by_type Message.REQ_SENSOR_DATA
  let s :=
    match p.1 with
    | [] => p.2
    | m :: _ =>
      ({ p.2 with direction := m.data.direction }).set_state
        State.ASSERT_OWN_AREAS
  let q := s.get_messages_by_type Message.ABORT
  match q.1 with
  | [] => q.2
  | _ :: _ =>
    q.2.send_message q.2.leader Message.ABORT_COMPLETE MsgData.nodata e.delay

/-- `PlatoonFollower.assert_own_areas` (the area verdicts come from the
environment oracle). -/
def assert_own_areas (e : Env) (s : PlatoonVehicle) : PlatoonVehicle :=
  let s := s.send_message s.leader Message.RESP_SENSOR_DATA
    (MsgData.areaData (e.alpha_free && e.beta_free)) e.delay
  (s.set_timer par.MAX_TIMER).set_state State.WAIT_FOR_DECISION

/-- `PlatoonFollower.wait_for_decision`. -/
def wait_for_decision (s : PlatoonVehicle) : PlatoonVehicle :=
  if s.timer = 0 then s.set_state State.IDLE
  else
    let p := s.get_messages_by_type Message.BEGIN_LANE_CHANGE
    if p.1 ≠ [] then
      ({ p.2 with begin_lane_change := true }).set_state State.CHANGING_LANE
    else p.2

/-- `PlatoonFollower.changing_lane`. -/
def changing_lane (e : Env) (s : PlatoonVehicle) : PlatoonVehicle :=
  let p := s.get_messages_by_type Message.ABORT
  if p.1 ≠ [] then
    ({ p.2 with begin_change_back := true }).set_state State.CHANGING_BACK
  else
    let s := PlatoonVehicle.changing_lane e p.2
    if !s.in_lane_change then s.set_state State.LANE_CHANGED
    else if s.begin_change_back then s.set_state State.ABORT
    else s

/-- `PlatoonFollower.handle_abort_and_lc_complete_messages`. -/
def handle_abort_and_lc_complete_messages (s : PlatoonVehicle) :
    PlatoonVehicle :=
  let p := s.get_messages_by_type Message.ABORT
  let s :=
    if p.1 ≠ [] then
      ({ p.2 with begin_change_back := true }).set_state State.CHANGING_BACK
    else p.2
  let q := s.get_messages_by_type Message.LANE_CHANGE_COMPLETE
  if q.1 ≠ [] then q.2.set_state State.LANE_CHANGE_COMPLETE else q.2

/-- `PlatoonFollower.lane_changed`. -/
def lane_changed (e : Env) (s : PlatoonVehicle) : PlatoonVehicle :=
  let s := handle_abort_and_lc_complete_messages s
  if s.state = State.LANE_CHANGED then
    let s := s.send_message s.leader Message.LANE_CHANGE_COMPLETE
      MsgData.nodata e.delay
    s.set_state State.IN_OVERTAKING_LANE
  else s

/-- `PlatoonFollower.in_overtaking_lane`. -/
def in_overtaking_lane (s : PlatoonVehicle) : PlatoonVehicle :=
  handle_abort_and_lc_complete_messages s

/-- `PlatoonFollower.lane_change_complete`. -/
def lane_change_complete (s : PlatoonVehicle) : PlatoonVehicle :=
  (PlatoonVehicle.lane_change_complete s).set_state State.IDLE

/-- `PlatoonFollower.abort`. -/
def abort (e : Env) (s : PlatoonVehicle) : PlatoonVehicle :=
  (s.send_message s.leader Message.ABORT MsgData.nodata e.delay).set_state
    State.CHANGING_BACK

/-- `PlatoonFollower.changing_back`. -/
def changing_back (e : Env) (s : PlatoonVehicle) : PlatoonVehicle :=
  let s := PlatoonVehicle.changing_back e s
  if !s.in_change_back then s.set_state State.IN_ORIGINAL_LANE else s

/-- `PlatoonFollower.in_original_lane`. -/
def in_original_lane (e : Env) (s : PlatoonVehicle) : PlatoonVehicle :=
  let s := { s with in_new_lane := false }
  (s.send_message s.leader Message.ABORT_COMPLETE MsgData.nodata
    e.delay).set_state State.IDLE

/-- The `if self.state == ... elif ...` chain of `PlatoonFollower.next_step`
(states not listed leave the agent unchanged). -/
def dispatch (e : Env) (s : PlatoonVehicle) : PlatoonVehicle :=
  match s.state with
  | .IDLE => idle e s
  | .ASSERT_OWN_AREAS => assert_own_areas e s
  | .WAIT_FOR_DECISION => wait_for_decision s
  | .CHANGING_LANE => changing_lane e s
  | .IN_OVERTAKING_LANE => in_overtaking_lane s
  | .LANE_CHANGED => lane_changed e s
  | .LANE_CHANGE_COMPLETE => lane_change_complete s
  | .ABORT => abort e s
  | .CHANGING_BACK => changing_back e s
  | .IN_ORIGINAL_LANE => in_original_lane e s
  | _ => s

/-- `PlatoonFollower.next_step`: the shared per-tick prelude followed by the
dispatch on the current state. -/
def next_step (e : Env) (s : PlatoonVehicle) : PlatoonVehicle :=
  dispatch e (PlatoonVehicle.next_step e s)

end PlatoonFollower

/-- The state an agent has right after `__init__` (`PlatoonVehicle.__init__`
plus the leader/follower extras): timer 0, state IDLE (recorded as the first
visited state, with direction LEFT), all maneuver flags false, backoff at
`par.MIN_BACKOFF`. -/
def PlatoonVehicle.init (v_id : String) (c : C2X) (followers : List String)
    (leader_id : String) : PlatoonVehicle :=
  { v_id := v_id
    step := 0
    timer := 0
    state := State.IDLE
    direction := Direction.LEFT
    in_lane_change := false
    begin_lane_change := false
    in_change_back := false
    begin_change_back := false
    msg_queue := []
    states_visited := [State.IDLE]
    ot_time_rec := []
    lanes_visited := []
    speed_min := none
    speed_max := none
    c2x := c
    lc_from := 0
    lc_to := 0
    in_new_lane := false
    lane_offset_last_step := 0
    abort_message := ""
    backoff := par.MIN_BACKOFF
    follower := followers
    waiting_for_reply := []
    safety_data := []
    ot_predicted := 0
    ot_started := -1
    detection_threshold := 0
    leader := leader_id }

/-- States reachable from a freshly initialized agent by any interleaving of
leader ticks, follower ticks and external message deliveries (another agent
appending an envelope to the shared channel). -/
inductive Reach : PlatoonVehicle → Prop where
  | init (v : String) (c : C2X) (fs : List String) (l : String) :
      Reach (PlatoonVehicle.init v c fs l)
  | tickLeader (e : Env) (s : PlatoonVehicle) :
      Reach s → Reach (PlatoonLeader.next_step e s)
  | tickFollower (e : Env) (s : PlatoonVehicle) :
      Reach s → Reach (PlatoonFollower.next_step e s)
  | deliver (s : PlatoonVehicle) (env : Envelope) :
      Reach s →
      Reach { s with c2x := { s.c2x with queue := s.c2x.queue ++ [env] } }

/-! ## Theorems -/

lemma count_filter_split (l : List Envelope) (p : Envelope → Bool)
    (a : Envelope) :
    (l.filter p).count a + (l.filter (fun e => !p e)).count a = l.count a := by
  induction l with
  | nil => simp
  | cons x xs ih =>
    by_cases h : p x = true <;>
      simp [List.filter_cons, h, List.count_cons] <;> omega

/-- C1: `receive(dest, s)` returns exactly the enqueued envelopes destined to
`dest` whose earliest-delivery step is at most `s`, in enqueue (FIFO) order,
and removes exactly those from the queue; an envelope sent at step `t` with
delay `del` is never returned before step `t + del`; each envelope is
returned at most once (counts are preserved across the result/remainder
split); and when no envelope qualifies the result is the empty list, not an
error. -/
theorem c2x_receive_spec (c : C2X) (dest : String) (step : Nat)
    (src : String) (m : Message) (d : MsgData) (t del : Nat) :
    (c.receive dest step).1 = c.queue.filter (C2X.visible dest step)
    ∧ (c.receive dest step).2.queue =
        c.queue.filter (fun e => !C2X.visible dest step e)
    ∧ (∀ env : Envelope,
        (c.receive dest step).1.count env +
          (c.receive dest step).2.queue.count env = c.queue.count env)
    ∧ (step < t + del →
        ((c.send src dest m d t del).receive dest step).1 =
          (c.receive dest step).1)
    ∧ ((∀ env ∈ c.queue, ¬ C2X.visible dest step env) →
        (c.receive dest step).1 = []) := by
  have hkeep : ∀ e : Envelope,
      (!(e.dest = dest) || ((e.dest = dest) && decide (step < e.recvMinStep)))
        = !C2X.visible dest step e := by
    intro e
    by_cases h : e.dest = dest
    · by_cases h2 : e.recvMinStep ≤ step
      · simp [C2X.visible, h, h2, Nat.not_lt.mpr h2]
      · simp [C2X.visible, h, h2, Nat.lt_of_not_le h2]
    · simp [C2X.visible, h]
  refine ⟨rfl, ?_, ?_, ?_, ?_⟩
  · simp only [C2X.receive]
    exact List.filter_congr (fun e _ => hkeep e)
  · intro env
    have h2 : (c.receive dest step).2.queue =
        c.queue.filter (fun e => !C2X.visible dest step e) := by
      simp only [C2X.receive]
      exact List.filter_congr (fun e _ => hkeep e)
    rw [h2]
    exact count_filter_split c.queue (C2X.visible dest step) env
  · intro hlt
    simp only [C2X.receive, C2X.send, List.filter_append]
    have : C2X.visible dest step
        { eid := c.cid, src := src, dest := dest, msg := m, data := d,
          recvMinStep := t + del } = false := by
      simp [C2X.visible]; omega
    simp [this]
  · intro hall
    simp only [C2X.receive]
    rw [List.filter_eq_nil_iff]
    intro a ha
    simpa using hall a ha

/-- Witness for `c2x_receive_spec` at a concrete channel: a message sent at
step 3 with delay 4 is not delivered at step 5. -/
theorem c2x_receive_spec_witness :
    (5 < 3 + 4) ∧
      (((C2X.mk [] [] 0).send "s" "A" Message.ABORT MsgData.nodata 3
          4).receive "A" 5).1 =
        ((C2X.mk [] [] 0).receive "A" 5).1 :=
  ⟨by decide,
    (c2x_receive_spec (C2X.mk [] [] 0) "A" 5 "s" Message.ABORT MsgData.nodata
      3 4).2.2.2.1 (by decide)⟩

/-- The two post-processing steps of `d_min`: the truck-minimum-gap floor
applied for RIGHT maneuvers, then the oscillation inflation applied while
not in a lane change. -/
def dMinModifiers (dir : Direction) (ilc : Bool) (x : QInf) : QInf :=
  let f := if dir = Direction.RIGHT then x.maxVal par.TRUCK_MIN_GAP else x
  if !ilc then f.scale (1 + par.OSCILLATION_MOD) else f

/-- C3: `d_min(a, rear)` computes the claimed kinematic formula when the rear
vehicle is faster and `a < 0`, the headway formula when the rear vehicle is
not faster and `a ≤ 0`, and infinity otherwise (in particular whenever the
rear vehicle is slower and `a` is positive, and also when it is faster and
`a ≥ 0`); for RIGHT maneuvers the result is floored at the fixed truck
minimum gap and, while not in a lane change, inflated by
`1 + OSCILLATION_MOD`. -/
theorem d_min_spec (dir : Direction) (ilc : Bool) (v_p v_r a : ℚ) :
    (v_r > v_p → a < 0 →
      PlatoonVehicle.d_min dir ilc v_p v_r a =
        dMinModifiers dir ilc
          (.val ((-1 / (2 * a)) * (v_p - v_r) ^ 2 + v_r * par.R_REACT +
            v_p * par.R_TIME_GAP)))
    ∧ (v_r ≤ v_p → a ≤ 0 →
      PlatoonVehicle.d_min dir ilc v_p v_r a =
        dMinModifiers dir ilc
          (.val (v_r * (par.R_REACT + par.R_TIME_GAP))))
    ∧ (v_r ≤ v_p → 0 < a →
      PlatoonVehicle.d_min dir ilc v_p v_r a = .inf)
    ∧ (v_r > v_p → 0 ≤ a →
      PlatoonVehicle.d_min dir ilc v_p v_r a = .inf) := by
  refine ⟨?_, ?_, ?_, ?_⟩
  · intro h1 h2
    simp [PlatoonVehicle.d_min, dMinModifiers, h1, h2]
  · intro h1 h2
    simp [PlatoonVehicle.d_min, dMinModifiers, h1, h2, not_lt.mpr h1]
  · intro h1 h2
    have ha : ¬ a < 0 := not_lt.mpr (le_of_lt h2)
    have ha2 : ¬ a ≤ 0 := not_le.mpr h2
    simp only [PlatoonVehicle.d_min, ha, ha2, and_false, if_false]
    cases dir <;> cases ilc <;> simp [QInf.maxVal, QInf.scale]
  · intro h1 h2
    have ha : ¬ a < 0 := not_lt.mpr h2
    have hv : ¬ v_r ≤ v_p := not_le.mpr h1
    simp only [PlatoonVehicle.d_min, ha, hv, and_false, false_and, if_false]
    cases dir <;> cases ilc <;> simp [QInf.maxVal, QInf.scale]

/-- Witness for `d_min_spec`: a faster rear vehicle (30 > 20 m/s) with
`a = -2` during a LEFT maneuver while in a lane change. -/
theorem d_min_spec_witness :
    (30 : ℚ) > 20 ∧ (-2 : ℚ) < 0 ∧
      PlatoonVehicle.d_min Direction.LEFT true 20 30 (-2) =
        dMinModifiers Direction.LEFT true
          (.val ((-1 / (2 * (-2))) * ((20 : ℚ) - 30) ^ 2 +
            30 * par.R_REACT + 20 * par.R_TIME_GAP)) :=
  ⟨by norm_num, by norm_num,
    (d_min_spec Direction.LEFT true 20 30 (-2)).1 (by norm_num) (by norm_num)⟩

/-- C4: `t_over` returns 0 whenever the adjusted obstacle distance (reduced,
for RIGHT maneuvers, by the distance covered during the lane-change-back and
settling period) is strictly below the platoon's safety distance — exactly 0,
with no lateral lane-crossing time added. -/
theorem t_over_zero_within_safety_dist (dir : Direction) (ilc : Bool)
    (tau a_max v_p lat_max dist_to_orig platoon_len sq : ℚ)
    (v_max_ot_lane v_slower dist_slower : ℚ)
    (h : (if dir = Direction.RIGHT then
            dist_slower - (v_p - v_slower) *
              (dist_to_orig / lat_max + par.TIME_STAY_IN_ORIGINAL_LANE)
          else dist_slower) <
        PlatoonVehicle.safety_dist_platoon ilc tau v_p) :
    PlatoonLeader.t_over dir ilc tau a_max v_p lat_max dist_to_orig
      platoon_len sq v_max_ot_lane v_slower dist_slower = .val 0 := by
  by_cases hd : dir = Direction.RIGHT <;>
    simp only [hd, if_true, if_false] at h <;>
    simp [PlatoonLeader.t_over, hd, h]

/-- Witness for `t_over_zero_within_safety_dist`: a LEFT-maneuver call whose
obstacle distance 10 m is below the safety distance `1.01 * 25` m. -/
theorem t_over_zero_within_safety_dist_witness :
    ((if Direction.LEFT = Direction.RIGHT then
        (10 : ℚ) - (25 - 20) * (0 / 3 + par.TIME_STAY_IN_ORIGINAL_LANE)
      else (10 : ℚ)) <
      PlatoonVehicle.safety_dist_platoon false 1 25) ∧
    PlatoonLeader.t_over Direction.LEFT false 1 2 25 3 0 60 7 30 20 10 =
      .val 0 := by
  have h : (if Direction.LEFT = Direction.RIGHT then
        (10 : ℚ) - (25 - 20) * (0 / 3 + par.TIME_STAY_IN_ORIGINAL_LANE)
      else (10 : ℚ)) <
      PlatoonVehicle.safety_dist_platoon false 1 25 := by
    simp [PlatoonVehicle.safety_dist_platoon, par.OSCILLATION_MOD]
    norm_num
  exact ⟨h, t_over_zero_within_safety_dist Direction.LEFT false 1 2 25 3 0 60
    7 30 20 10 h⟩

/-- C9: in `t_over`, when the achievable lane speed equals the obstacle's
speed and the distance/relative-speed branch is taken (the limiting speed
`v_over = v_slower + sq` exceeds the lane ceiling because the square root
`sq` is positive), the division by the zero relative speed is caught and
`t_over` returns positive infinity rather than raising an error. -/
theorem t_over_inf_zero_relative_speed (dir : Direction) (ilc : Bool)
    (tau a_max v_p lat_max dist_to_orig platoon_len sq : ℚ)
    (v_max_ot_lane v_slower dist_slower : ℚ)
    (hnear : ¬ ((if dir = Direction.RIGHT then
            dist_slower - (v_p - v_slower) *
              (dist_to_orig / lat_max + par.TIME_STAY_IN_ORIGINAL_LANE)
          else dist_slower) <
        PlatoonVehicle.safety_dist_platoon ilc tau v_p))
    (hsq : 0 < sq) (heq : v_max_ot_lane = v_slower) :
    PlatoonLeader.t_over dir ilc tau a_max v_p lat_max dist_to_orig
      platoon_len sq v_max_ot_lane v_slower dist_slower = .inf := by
  have hgt : ¬ (v_slower + sq ≤ v_max_ot_lane) := by
    rw [heq]; linarith
  have hz : v_max_ot_lane - v_slower = 0 := by rw [heq]; ring
  by_cases hd : dir = Direction.RIGHT <;>
    simp only [hd, if_true, if_false] at hnear <;>
    simp [PlatoonLeader.t_over, hd, hnear, hgt, hz]

/-- Witness for `t_over_inf_zero_relative_speed`: obstacle at 1000 m (above
the 25.25 m safety distance), `sq = 5 > 0`, lane ceiling equal to the
obstacle speed (20 m/s). -/
theorem t_over_inf_zero_relative_speed_witness :
    (¬ ((if Direction.LEFT = Direction.RIGHT then
          (1000 : ℚ) - (25 - 20) * (0 / 3 + par.TIME_STAY_IN_ORIGINAL_LANE)
        else (1000 : ℚ)) <
        PlatoonVehicle.safety_dist_platoon false 1 25)) ∧
    PlatoonLeader.t_over Direction.LEFT false 1 2 25 3 0 60 5 20 20 1000 =
      .inf := by
  have h : ¬ ((if Direction.LEFT = Direction.RIGHT then
          (1000 : ℚ) - (25 - 20) * (0 / 3 + par.TIME_STAY_IN_ORIGINAL_LANE)
        else (1000 : ℚ)) <
        PlatoonVehicle.safety_dist_platoon false 1 25) := by
    simp [PlatoonVehicle.safety_dist_platoon, par.OSCILLATION_MOD]
    norm_num
  exact ⟨h, t_over_inf_zero_relative_speed Direction.LEFT false 1 2 25 3 0 60
    5 20 20 1000 h (by norm_num) rfl⟩

lemma rVariant_ne_self (st : State) :
    ∀ r, State.rVariant st = some r → r ≠ st := by
  cases st <;> decide

/-- C10: every `set_state` call appends exactly one entry to the
visited-states metric (for every state the program passes, i.e. every state
that has an `R_` pseudo-variant); the entry equals the literal state exactly
when the maneuver direction is LEFT or the state is PASSING or
OVERTAKING_COMPLETE, and otherwise it is the `R_`-prefixed pseudo-state,
which always differs from the literal state. -/
theorem set_state_spec (s : PlatoonVehicle) (st r : State)
    (h : State.rVariant st = some r) :
    (s.set_state st).state = st
    ∧ (s.set_state st).states_visited = s.states_visited ++
        [if s.direction = Direction.LEFT ∨ st = State.PASSING ∨
            st = State.OVERTAKING_COMPLETE then st else r]
    ∧ ((s.direction = Direction.LEFT ∨ st = State.PASSING ∨
          st = State.OVERTAKING_COMPLETE) →
        (s.set_state st).states_visited.getLast? = some st)
    ∧ (¬ (s.direction = Direction.LEFT ∨ st = State.PASSING ∨
          st = State.OVERTAKING_COMPLETE) →
        (s.set_state st).states_visited.getLast? = some r ∧ r ≠ st) := by
  refine ⟨rfl, ?_, ?_, ?_⟩
  · simp [PlatoonVehicle.set_state, h]
  · intro hc
    simp [PlatoonVehicle.set_state, hc]
  · intro hc
    refine ⟨?_, rVariant_ne_self st r h⟩
    simp [PlatoonVehicle.set_state, hc, h]

/-- Witness for `set_state_spec`: setting `CHANGING_LANE` while maneuvering
RIGHT records the pseudo-state `R_CHANGING_LANE`, not the state itself. -/
theorem set_state_spec_witness :
    State.rVariant State.CHANGING_LANE = some State.R_CHANGING_LANE ∧
    (¬ ((Direction.RIGHT : Direction) = Direction.LEFT ∨
        State.CHANGING_LANE = State.PASSING ∨
        State.CHANGING_LANE = State.OVERTAKING_COMPLETE)) ∧
    (({ PlatoonVehicle.init "L" (C2X.mk [] [] 0) [] "" with
        direction := Direction.RIGHT }).set_state
          State.CHANGING_LANE).states_visited.getLast? =
        some State.R_CHANGING_LANE ∧
      State.R_CHANGING_LANE ≠ State.CHANGING_LANE :=
  ⟨rfl, by decide,
    (set_state_spec
      { PlatoonVehicle.init "L" (C2X.mk [] [] 0) [] "" with
        direction := Direction.RIGHT }
      State.CHANGING_LANE State.R_CHANGING_LANE rfl).2.2.2 (by decide)⟩


/-! Projection lemmas for the building blocks of the tick functions. -/

@[simp] lemma detect_lane_crossing_v_id (e : Env) (t : PlatoonVehicle) :
    (PlatoonVehicle.detect_lane_crossing e t).v_id = t.v_id := by unfold PlatoonVehicle.detect_lane_crossing; split <;> rfl

@[simp] lemma detect_lane_crossing_step (e : Env) (t : PlatoonVehicle) :
    (PlatoonVehicle.detect_lane_crossing e t).step = t.step := by unfold PlatoonVehicle.detect_lane_crossing; split <;> rfl

@[simp] lemma detect_lane_crossing_timer (e : Env) (t : PlatoonVehicle) :
    (PlatoonVehicle.detect_lane_crossing e t).timer = t.timer := by unfold PlatoonVehicle.detect_lane_crossing; split <;> rfl

@[simp] lemma detect_lane_crossing_state (e : Env) (t : PlatoonVehicle) :
    (PlatoonVehicle.detect_lane_crossing e t).state = t.state := by unfold PlatoonVehicle.detect_lane_crossing; split <;> rfl

@[simp] lemma detect_lane_crossing_direction (e : Env) (t : PlatoonVehicle) :
    (PlatoonVehicle.detect_lane_crossing e t).direction = t.direction := by unfold PlatoonVehicle.detect_lane_crossing; split <;> rfl

@[simp] lemma detect_lane_crossing_in_lane_change (e : Env) (t : PlatoonVehicle) :
    (PlatoonVehicle.detect_lane_crossing e t).in_lane_change = t.in_lane_change := by unfold PlatoonVehicle.detect_lane_crossing; split <;> rfl

@[simp] lemma detect_lane_crossing_begin_lane_change (e : Env) (t : PlatoonVehicle) :
    (PlatoonVehicle.detect_lane_crossing e t).begin_lane_change = t.begin_lane_change := by unfold PlatoonVehicle.detect_lane_crossing; split <;> rfl

@[simp] lemma detect_lane_crossing_in_change_back (e : Env) (t : PlatoonVehicle) :
    (PlatoonVehicle.detect_lane_crossing e t).in_change_back = t.in_change_back := by unfold PlatoonVehicle.detect_lane_crossing; split <;> rfl

@[simp] lemma detect_lane_crossing_begin_change_back (e : Env) (t : PlatoonVehicle) :
    (PlatoonVehicle.detect_lane_crossing e t).begin_change_back = t.begin_change_back := by unfold PlatoonVehicle.detect_lane_crossing; split <;> rfl

@[simp] lemma detect_lane_crossing_msg_queue (e : Env) (t : PlatoonVehicle) :
    (PlatoonVehicle.detect_lane_crossing e t).msg_queue = t.msg_queue := by unfold PlatoonVehicle.detect_lane_crossing; split <;> rfl

@[simp] lemma detect_lane_crossing_lanes_visited (e : Env) (t : PlatoonVehicle) :
    (PlatoonVehicle.detect_lane_crossing e t).lanes_visited = t.lanes_visited := by unfold PlatoonVehicle.detect_lane_crossing; split <;> rfl

@[simp] lemma detect_lane_crossing_c2x (e : Env) (t : PlatoonVehicle) :
    (PlatoonVehicle.detect_lane_crossing e t).c2x = t.c2x := by unfold PlatoonVehicle.detect_lane_crossing; split <;> rfl

@[simp] lemma detect_lane_crossing_in_new_lane (e : Env) (t : PlatoonVehicle) :
    (PlatoonVehicle.detect_lane_crossing e t).in_new_lane = (if |e.lat_offset| > par.LANE_OFFSET_MIN ∧ t.lane_offset_last_step * e.lat_offset < 0 then true else t.in_new_lane) := by unfold PlatoonVehicle.detect_lane_crossing; split <;> rfl

@[simp] lemma detect_lane_crossing_lane_offset_last_step (e : Env) (t : PlatoonVehicle) :
    (PlatoonVehicle.detect_lane_crossing e t).lane_offset_last_step = e.lat_offset := by unfold PlatoonVehicle.detect_lane_crossing; split <;> rfl

@[simp] lemma detect_lane_crossing_backoff (e : Env) (t : PlatoonVehicle) :
    (PlatoonVehicle.detect_lane_crossing e t).backoff = t.backoff := by unfold PlatoonVehicle.detect_lane_crossing; split <;> rfl

@[simp] lemma detect_lane_crossing_follower (e : Env) (t : PlatoonVehicle) :
    (PlatoonVehicle.detect_lane_crossing e t).follower = t.follower := by unfold PlatoonVehicle.detect_lane_crossing; split <;> rfl

@[simp] lemma detect_lane_crossing_waiting_for_reply (e : Env) (t : PlatoonVehicle) :
    (PlatoonVehicle.detect_lane_crossing e t).waiting_for_reply = t.waiting_for_reply := by unfold PlatoonVehicle.detect_lane_crossing; split <;> rfl

@[simp] lemma detect_lane_crossing_safety_data (e : Env) (t : PlatoonVehicle) :
    (PlatoonVehicle.detect_lane_crossing e t).safety_data = t.safety_data := by unfold PlatoonVehicle.detect_lane_crossing; split <;> rfl

@[simp] lemma detect_lane_crossing_detection_threshold (e : Env) (t : PlatoonVehicle) :
    (PlatoonVehicle.detect_lane_crossing e t).detection_threshold = t.detection_threshold := by unfold PlatoonVehicle.detect_lane_crossing; split <;> rfl

@[simp] lemma detect_lane_crossing_states_visited (e : Env) (t : PlatoonVehicle) :
    (PlatoonVehicle.detect_lane_crossing e t).states_visited = t.states_visited := by unfold PlatoonVehicle.detect_lane_crossing; split <;> rfl

@[simp] lemma detect_lane_crossing_ot_started (e : Env) (t : PlatoonVehicle) :
    (PlatoonVehicle.detect_lane_crossing e t).ot_started = t.ot_started := by unfold PlatoonVehicle.detect_lane_crossing; split <;> rfl

@[simp] lemma detect_lane_crossing_abort_message (e : Env) (t : PlatoonVehicle) :
    (PlatoonVehicle.detect_lane_crossing e t).abort_message = t.abort_message := by unfold PlatoonVehicle.detect_lane_crossing; split <;> rfl

@[simp] lemma detect_lane_crossing_leader (e : Env) (t : PlatoonVehicle) :
    (PlatoonVehicle.detect_lane_crossing e t).leader = t.leader := by unfold PlatoonVehicle.detect_lane_crossing; split <;> rfl

@[simp] lemma record_v_id (e : Env) (t : PlatoonVehicle) :
    (PlatoonVehicle.record e t).v_id = t.v_id := rfl

@[simp] lemma record_step (e : Env) (t : PlatoonVehicle) :
    (PlatoonVehicle.record e t).step = t.step := rfl

@[simp] lemma record_timer (e : Env) (t : PlatoonVehicle) :
    (PlatoonVehicle.record e t).timer = t.timer := rfl

@[simp] lemma record_state (e : Env) (t : PlatoonVehicle) :
    (PlatoonVehicle.record e t).state = t.state := rfl

@[simp] lemma record_direction (e : Env) (t : PlatoonVehicle) :
    (PlatoonVehicle.record e t).direction = t.direction := rfl

@[simp] lemma record_in_lane_change (e : Env) (t : PlatoonVehicle) :
    (PlatoonVehicle.record e t).in_lane_change = t.in_lane_change := rfl

@[simp] lemma record_begin_lane_change (e : Env) (t : PlatoonVehicle) :
    (PlatoonVehicle.record e t).begin_lane_change = t.begin_lane_change := rfl

@[simp] lemma record_in_change_back (e : Env) (t : PlatoonVehicle) :
    (PlatoonVehicle.record e t).in_change_back = t.in_change_back := rfl

@[simp] lemma record_begin_change_back (e : Env) (t : PlatoonVehicle) :
    (PlatoonVehicle.record e t).begin_change_back = t.begin_change_back := rfl

@[simp] lemma record_msg_queue (e : Env) (t : PlatoonVehicle) :
    (PlatoonVehicle.record e t).msg_queue = t.msg_queue := rfl

@[simp] lemma record_lanes_visited (e : Env) (t : PlatoonVehicle) :
    (PlatoonVehicle.record e t).lanes_visited = (if t.lanes_visited.getLast? = some e.lane_index then t.lanes_visited else t.lanes_visited ++ [e.lane_index]) := rfl

@[simp] lemma record_c2x (e : Env) (t : PlatoonVehicle) :
    (PlatoonVehicle.record e t).c2x = t.c2x := rfl

@[simp] lemma record_in_new_lane (e : Env) (t : PlatoonVehicle) :
    (PlatoonVehicle.record e t).in_new_lane = t.in_new_lane := rfl

@[simp] lemma record_lane_offset_last_step (e : Env) (t : PlatoonVehicle) :
    (PlatoonVehicle.record e t).lane_offset_last_step = t.lane_offset_last_step := rfl

@[simp] lemma record_backoff (e : Env) (t : PlatoonVehicle) :
    (PlatoonVehicle.record e t).backoff = t.backoff := rfl

@[simp] lemma record_follower (e : Env) (t : PlatoonVehicle) :
    (PlatoonVehicle.record e t).follower = t.follower := rfl

@[simp] lemma record_waiting_for_reply (e : Env) (t : PlatoonVehicle) :
    (PlatoonVehicle.record e t).waiting_for_reply = t.waiting_for_reply := rfl

@[simp] lemma record_safety_data (e : Env) (t : PlatoonVehicle) :
    (PlatoonVehicle.record e t).safety_data = t.safety_data := rfl

@[simp] lemma record_detection_threshold (e : Env) (t : PlatoonVehicle) :
    (PlatoonVehicle.record e t).detection_threshold = t.detection_threshold := rfl

@[simp] lemma record_states_visited (e : Env) (t : PlatoonVehicle) :
    (PlatoonVehicle.record e t).states_visited = t.states_visited := rfl

@[simp] lemma record_ot_started (e : Env) (t : PlatoonVehicle) :
    (PlatoonVehicle.record e t).ot_started = t.ot_started := rfl

@[simp] lemma record_abort_message (e : Env) (t : PlatoonVehicle) :
    (PlatoonVehicle.record e t).abort_message = t.abort_message := rfl

@[simp] lemma record_leader (e : Env) (t : PlatoonVehicle) :
    (PlatoonVehicle.record e t).leader = t.leader := rfl

@[simp] lemma receive_messages_v_id (t : PlatoonVehicle) :
    (PlatoonVehicle.receive_messages t).v_id = t.v_id := rfl

@[simp] lemma receive_messages_step (t : PlatoonVehicle) :
    (PlatoonVehicle.receive_messages t).step = t.step := rfl

@[simp] lemma receive_messages_timer (t : PlatoonVehicle) :
    (PlatoonVehicle.receive_messages t).timer = t.timer := rfl

@[simp] lemma receive_messages_state (t : PlatoonVehicle) :
    (PlatoonVehicle.receive_messages t).state = t.state := rfl

@[simp] lemma receive_messages_direction (t : PlatoonVehicle) :
    (PlatoonVehicle.receive_messages t).direction = t.direction := rfl

@[simp] lemma receive_messages_in_lane_change (t : PlatoonVehicle) :
    (PlatoonVehicle.receive_messages t).in_lane_change = t.in_lane_change := rfl

@[simp] lemma receive_messages_begin_lane_change (t : PlatoonVehicle) :
    (PlatoonVehicle.receive_messages t).begin_lane_change = t.begin_lane_change := rfl

@[simp] lemma receive_messages_in_change_back (t : PlatoonVehicle) :
    (PlatoonVehicle.receive_messages t).in_change_back = t.in_change_back := rfl

@[simp] lemma receive_messages_begin_change_back (t : PlatoonVehicle) :
    (PlatoonVehicle.receive_messages t).begin_change_back = t.begin_change_back := rfl

@[simp] lemma receive_messages_msg_queue (t : PlatoonVehicle) :
    (PlatoonVehicle.receive_messages t).msg_queue = t.msg_queue ++ (t.c2x.receive t.v_id t.step).1 := rfl

@[simp] lemma receive_messages_lanes_visited (t : PlatoonVehicle) :
    (PlatoonVehicle.receive_messages t).lanes_visited = t.lanes_visited := rfl

@[simp] lemma receive_messages_c2x (t : PlatoonVehicle) :
    (PlatoonVehicle.receive_messages t).c2x = (t.c2x.receive t.v_id t.step).2 := rfl

@[simp] lemma receive_messages_in_new_lane (t : PlatoonVehicle) :
    (PlatoonVehicle.receive_messages t).in_new_lane = t.in_new_lane := rfl

@[simp] lemma receive_messages_lane_offset_last_step (t : PlatoonVehicle) :
    (PlatoonVehicle.receive_messages t).lane_offset_last_step = t.lane_offset_last_step := rfl

@[simp] lemma receive_messages_backoff (t : PlatoonVehicle) :
    (PlatoonVehicle.receive_messages t).backoff = t.backoff := rfl

@[simp] lemma receive_messages_follower (t : PlatoonVehicle) :
    (PlatoonVehicle.receive_messages t).follower = t.follower := rfl

@[simp] lemma receive_messages_waiting_for_reply (t : PlatoonVehicle) :
    (PlatoonVehicle.receive_messages t).waiting_for_reply = t.waiting_for_reply := rfl

@[simp] lemma receive_messages_safety_data (t : PlatoonVehicle) :
    (PlatoonVehicle.receive_messages t).safety_data = t.safety_data := rfl

@[simp] lemma receive_messages_detection_threshold (t : PlatoonVehicle) :
    (PlatoonVehicle.receive_messages t).detection_threshold = t.detection_threshold := rfl

@[simp] lemma receive_messages_states_visited (t : PlatoonVehicle) :
    (PlatoonVehicle.receive_messages t).states_visited = t.states_visited := rfl

@[simp] lemma receive_messages_ot_started (t : PlatoonVehicle) :
    (PlatoonVehicle.receive_messages t).ot_started = t.ot_started := rfl

@[simp] lemma receive_messages_abort_message (t : PlatoonVehicle) :
    (PlatoonVehicle.receive_messages t).abort_message = t.abort_message := rfl

@[simp] lemma receive_messages_leader (t : PlatoonVehicle) :
    (PlatoonVehicle.receive_messages t).leader = t.leader := rfl

@[simp] lemma decrement_timer_v_id (t : PlatoonVehicle) :
    (PlatoonVehicle.decrement_timer t).v_id = t.v_id := by unfold PlatoonVehicle.decrement_timer; split <;> rfl

@[simp] lemma decrement_timer_step (t : PlatoonVehicle) :
    (PlatoonVehicle.decrement_timer t).step = t.step := by unfold PlatoonVehicle.decrement_timer; split <;> rfl

@[simp] lemma decrement_timer_timer (t : PlatoonVehicle) :
    (PlatoonVehicle.decrement_timer t).timer = (if t.timer > 0 then t.timer - 1 else t.timer) := by unfold PlatoonVehicle.decrement_timer; split <;> simp_all

@[simp] lemma decrement_timer_state (t : PlatoonVehicle) :
    (PlatoonVehicle.decrement_timer t).state = t.state := by unfold PlatoonVehicle.decrement_timer; split <;> rfl

@[simp] lemma decrement_timer_direction (t : PlatoonVehicle) :
    (PlatoonVehicle.decrement_timer t).direction = t.direction := by unfold PlatoonVehicle.decrement_timer; split <;> rfl

@[simp] lemma decrement_timer_in_lane_change (t : PlatoonVehicle) :
    (PlatoonVehicle.decrement_timer t).in_lane_change = t.in_lane_change := by unfold PlatoonVehicle.decrement_timer; split <;> rfl

@[simp] lemma decrement_timer_begin_lane_change (t : PlatoonVehicle) :
    (PlatoonVehicle.decrement_timer t).begin_lane_change = t.begin_lane_change := by unfold PlatoonVehicle.decrement_timer; split <;> rfl

@[simp] lemma decrement_timer_in_change_back (t : PlatoonVehicle) :
    (PlatoonVehicle.decrement_timer t).in_change_back = t.in_change_back := by unfold PlatoonVehicle.decrement_timer; split <;> rfl

@[simp] lemma decrement_timer_begin_change_back (t : PlatoonVehicle) :
    (PlatoonVehicle.decrement_timer t).begin_change_back = t.begin_change_back := by unfold PlatoonVehicle.decrement_timer; split <;> rfl

@[simp] lemma decrement_timer_msg_queue (t : PlatoonVehicle) :
    (PlatoonVehicle.decrement_timer t).msg_queue = t.msg_queue := by unfold PlatoonVehicle.decrement_timer; split <;> rfl

@[simp] lemma decrement_timer_lanes_visited (t : PlatoonVehicle) :
    (PlatoonVehicle.decrement_timer t).lanes_visited = t.lanes_visited := by unfold PlatoonVehicle.decrement_timer; split <;> rfl

@[simp] lemma decrement_timer_c2x (t : PlatoonVehicle) :
    (PlatoonVehicle.decrement_timer t).c2x = t.c2x := by unfold PlatoonVehicle.decrement_timer; split <;> rfl

@[simp] lemma decrement_timer_in_new_lane (t : PlatoonVehicle) :
    (PlatoonVehicle.decrement_timer t).in_new_lane = t.in_new_lane := by unfold PlatoonVehicle.decrement_timer; split <;> rfl

@[simp] lemma decrement_timer_lane_offset_last_step (t : PlatoonVehicle) :
    (PlatoonVehicle.decrement_timer t).lane_offset_last_step = t.lane_offset_last_step := by unfold PlatoonVehicle.decrement_timer; split <;> rfl

@[simp] lemma decrement_timer_backoff (t : PlatoonVehicle) :
    (PlatoonVehicle.decrement_timer t).backoff = t.backoff := by unfold PlatoonVehicle.decrement_timer; split <;> rfl

@[simp] lemma decrement_timer_follower (t : PlatoonVehicle) :
    (PlatoonVehicle.decrement_timer t).follower = t.follower := by unfold PlatoonVehicle.decrement_timer; split <;> rfl

@[simp] lemma decrement_timer_waiting_for_reply (t : PlatoonVehicle) :
    (PlatoonVehicle.decrement_timer t).waiting_for_reply = t.waiting_for_reply := by unfold PlatoonVehicle.decrement_timer; split <;> rfl

@[simp] lemma decrement_timer_safety_data (t : PlatoonVehicle) :
    (PlatoonVehicle.decrement_timer t).safety_data = t.safety_data := by unfold PlatoonVehicle.decrement_timer; split <;> rfl

@[simp] lemma decrement_timer_detection_threshold (t : PlatoonVehicle) :
    (PlatoonVehicle.decrement_timer t).detection_threshold = t.detection_threshold := by unfold PlatoonVehicle.decrement_timer; split <;> rfl

@[simp] lemma decrement_timer_states_visited (t : PlatoonVehicle) :
    (PlatoonVehicle.decrement_timer t).states_visited = t.states_visited := by unfold PlatoonVehicle.decrement_timer; split <;> rfl

@[simp] lemma decrement_timer_ot_started (t : PlatoonVehicle) :
    (PlatoonVehicle.decrement_timer t).ot_started = t.ot_started := by unfold PlatoonVehicle.decrement_timer; split <;> rfl

@[simp] lemma decrement_timer_abort_message (t : PlatoonVehicle) :
    (PlatoonVehicle.decrement_timer t).abort_message = t.abort_message := by unfold PlatoonVehicle.decrement_timer; split <;> rfl

@[simp] lemma decrement_timer_leader (t : PlatoonVehicle) :
    (PlatoonVehicle.decrement_timer t).leader = t.leader := by unfold PlatoonVehicle.decrement_timer; split <;> rfl

@[simp] lemma set_timer_v_id (t : PlatoonVehicle) (v : Int) :
    (PlatoonVehicle.set_timer t v).v_id = t.v_id := rfl

@[simp] lemma set_timer_step (t : PlatoonVehicle) (v : Int) :
    (PlatoonVehicle.set_timer t v).step = t.step := rfl

@[simp] lemma set_timer_timer (t : PlatoonVehicle) (v : Int) :
    (PlatoonVehicle.set_timer t v).timer = v := rfl

@[simp] lemma set_timer_state (t : PlatoonVehicle) (v : Int) :
    (PlatoonVehicle.set_timer t v).state = t.state := rfl

@[simp] lemma set_timer_direction (t : PlatoonVehicle) (v : Int) :
    (PlatoonVehicle.set_timer t v).direction = t.direction := rfl

@[simp] lemma set_timer_in_lane_change (t : PlatoonVehicle) (v : Int) :
    (PlatoonVehicle.set_timer t v).in_lane_change = t.in_lane_change := rfl

@[simp] lemma set_timer_begin_lane_change (t : PlatoonVehicle) (v : Int) :
    (PlatoonVehicle.set_timer t v).begin_lane_change = t.begin_lane_change := rfl

@[simp] lemma set_timer_in_change_back (t : PlatoonVehicle) (v : Int) :
    (PlatoonVehicle.set_timer t v).in_change_back = t.in_change_back := rfl

@[simp] lemma set_timer_begin_change_back (t : PlatoonVehicle) (v : Int) :
    (PlatoonVehicle.set_timer t v).begin_change_back = t.begin_change_back := rfl

@[simp] lemma set_timer_msg_queue (t : PlatoonVehicle) (v : Int) :
    (PlatoonVehicle.set_timer t v).msg_queue = t.msg_queue := rfl

@[simp] lemma set_timer_lanes_visited (t : PlatoonVehicle) (v : Int) :
    (PlatoonVehicle.set_timer t v).lanes_visited = t.lanes_visited := rfl

@[simp] lemma set_timer_c2x (t : PlatoonVehicle) (v : Int) :
    (PlatoonVehicle.set_timer t v).c2x = t.c2x := rfl

@[simp] lemma set_timer_in_new_lane (t : PlatoonVehicle) (v : Int) :
    (PlatoonVehicle.set_timer t v).in_new_lane = t.in_new_lane := rfl

@[simp] lemma set_timer_lane_offset_last_step (t : PlatoonVehicle) (v : Int) :
    (PlatoonVehicle.set_timer t v).lane_offset_last_step = t.lane_offset_last_step := rfl

@[simp] lemma set_timer_backoff (t : PlatoonVehicle) (v : Int) :
    (PlatoonVehicle.set_timer t v).backoff = t.backoff := rfl

@[simp] lemma set_timer_follower (t : PlatoonVehicle) (v : Int) :
    (PlatoonVehicle.set_timer t v).follower = t.follower := rfl

@[simp] lemma set_timer_waiting_for_reply (t : PlatoonVehicle) (v : Int) :
    (PlatoonVehicle.set_timer t v).waiting_for_reply = t.waiting_for_reply := rfl

@[simp] lemma set_timer_safety_data (t : PlatoonVehicle) (v : Int) :
    (PlatoonVehicle.set_timer t v).safety_data = t.safety_data := rfl

@[simp] lemma set_timer_detection_threshold (t : PlatoonVehicle) (v : Int) :
    (PlatoonVehicle.set_timer t v).detection_threshold = t.detection_threshold := rfl

@[simp] lemma set_timer_states_visited (t : PlatoonVehicle) (v : Int) :
    (PlatoonVehicle.set_timer t v).states_visited = t.states_visited := rfl

@[simp] lemma set_timer_ot_started (t : PlatoonVehicle) (v : Int) :
    (PlatoonVehicle.set_timer t v).ot_started = t.ot_started := rfl

@[simp] lemma set_timer_abort_message (t : PlatoonVehicle) (v : Int) :
    (PlatoonVehicle.set_timer t v).abort_message = t.abort_message := rfl

@[simp] lemma set_timer_leader (t : PlatoonVehicle) (v : Int) :
    (PlatoonVehicle.set_timer t v).leader = t.leader := rfl

@[simp] lemma broadcast_v_id (t : PlatoonVehicle) (m : Message) (d : MsgData) (del : Nat) :
    (PlatoonVehicle.broadcast t m d del).v_id = t.v_id := rfl

@[simp] lemma broadcast_step (t : PlatoonVehicle) (m : Message) (d : MsgData) (del : Nat) :
    (PlatoonVehicle.broadcast t m d del).step = t.step := rfl

@[simp] lemma broadcast_timer (t : PlatoonVehicle) (m : Message) (d : MsgData) (del : Nat) :
    (PlatoonVehicle.broadcast t m d del).timer = t.timer := rfl

@[simp] lemma broadcast_state (t : PlatoonVehicle) (m : Message) (d : MsgData) (del : Nat) :
    (PlatoonVehicle.broadcast t m d del).state = t.state := rfl

@[simp] lemma broadcast_direction (t : PlatoonVehicle) (m : Message) (d : MsgData) (del : Nat) :
    (PlatoonVehicle.broadcast t m d del).direction = t.direction := rfl

@[simp] lemma broadcast_in_lane_change (t : PlatoonVehicle) (m : Message) (d : MsgData) (del : Nat) :
    (PlatoonVehicle.broadcast t m d del).in_lane_change = t.in_lane_change := rfl

@[simp] lemma broadcast_begin_lane_change (t : PlatoonVehicle) (m : Message) (d : MsgData) (del : Nat) :
    (PlatoonVehicle.broadcast t m d del).begin_lane_change = t.begin_lane_change := rfl

@[simp] lemma broadcast_in_change_back (t : PlatoonVehicle) (m : Message) (d : MsgData) (del : Nat) :
    (PlatoonVehicle.broadcast t m d del).in_change_back = t.in_change_back := rfl

@[simp] lemma broadcast_begin_change_back (t : PlatoonVehicle) (m : Message) (d : MsgData) (del : Nat) :
    (PlatoonVehicle.broadcast t m d del).begin_change_back = t.begin_change_back := rfl

@[simp] lemma broadcast_msg_queue (t : PlatoonVehicle) (m : Message) (d : MsgData) (del : Nat) :
    (PlatoonVehicle.broadcast t m d del).msg_queue = t.msg_queue := rfl

@[simp] lemma broadcast_lanes_visited (t : PlatoonVehicle) (m : Message) (d : MsgData) (del : Nat) :
    (PlatoonVehicle.broadcast t m d del).lanes_visited = t.lanes_visited := rfl

@[simp] lemma broadcast_in_new_lane (t : PlatoonVehicle) (m : Message) (d : MsgData) (del : Nat) :
    (PlatoonVehicle.broadcast t m d del).in_new_lane = t.in_new_lane := rfl

@[simp] lemma broadcast_lane_offset_last_step (t : PlatoonVehicle) (m : Message) (d : MsgData) (del : Nat) :
    (PlatoonVehicle.broadcast t m d del).lane_offset_last_step = t.lane_offset_last_step := rfl

@[simp] lemma broadcast_backoff (t : PlatoonVehicle) (m : Message) (d : MsgData) (del : Nat) :
    (PlatoonVehicle.broadcast t m d del).backoff = t.backoff := rfl

@[simp] lemma broadcast_follower (t : PlatoonVehicle) (m : Message) (d : MsgData) (del : Nat) :
    (PlatoonVehicle.broadcast t m d del).follower = t.follower := rfl

@[simp] lemma broadcast_waiting_for_reply (t : PlatoonVehicle) (m : Message) (d : MsgData) (del : Nat) :
    (PlatoonVehicle.broadcast t m d del).waiting_for_reply = t.waiting_for_reply := rfl

@[simp] lemma broadcast_safety_data (t : PlatoonVehicle) (m : Message) (d : MsgData) (del : Nat) :
    (PlatoonVehicle.broadcast t m d del).safety_data = t.safety_data := rfl

@[simp] lemma broadcast_detection_threshold (t : PlatoonVehicle) (m : Message) (d : MsgData) (del : Nat) :
    (PlatoonVehicle.broadcast t m d del).detection_threshold = t.detection_threshold := rfl

@[simp] lemma broadcast_states_visited (t : PlatoonVehicle) (m : Message) (d : MsgData) (del : Nat) :
    (PlatoonVehicle.broadcast t m d del).states_visited = t.states_visited := rfl

@[simp] lemma broadcast_ot_started (t : PlatoonVehicle) (m : Message) (d : MsgData) (del : Nat) :
    (PlatoonVehicle.broadcast t m d del).ot_started = t.ot_started := rfl

@[simp] lemma broadcast_abort_message (t : PlatoonVehicle) (m : Message) (d : MsgData) (del : Nat) :
    (PlatoonVehicle.broadcast t m d del).abort_message = t.abort_message := rfl

@[simp] lemma broadcast_leader (t : PlatoonVehicle) (m : Message) (d : MsgData) (del : Nat) :
    (PlatoonVehicle.broadcast t m d del).leader = t.leader := rfl

@[simp] lemma set_state_l_v_id (t : PlatoonVehicle) (st : State) :
    (PlatoonVehicle.set_state t st).v_id = t.v_id := rfl

@[simp] lemma set_state_l_step (t : PlatoonVehicle) (st : State) :
    (PlatoonVehicle.set_state t st).step = t.step := rfl

@[simp] lemma set_state_l_timer (t : PlatoonVehicle) (st : State) :
    (PlatoonVehicle.set_state t st).timer = t.timer := rfl

@[simp] lemma set_state_l_state (t : PlatoonVehicle) (st : State) :
    (PlatoonVehicle.set_state t st).state = st := rfl

@[simp] lemma set_state_l_direction (t : PlatoonVehicle) (st : State) :
    (PlatoonVehicle.set_state t st).direction = t.direction := rfl

@[simp] lemma set_state_l_in_lane_change (t : PlatoonVehicle) (st : State) :
    (PlatoonVehicle.set_state t st).in_lane_change = t.in_lane_change := rfl

@[simp] lemma set_state_l_begin_lane_change (t : PlatoonVehicle) (st : State) :
    (PlatoonVehicle.set_state t st).begin_lane_change = t.begin_lane_change := rfl

@[simp] lemma set_state_l_in_change_back (t : PlatoonVehicle) (st : State) :
    (PlatoonVehicle.set_state t st).in_change_back = t.in_change_back := rfl

@[simp] lemma set_state_l_begin_change_back (t : PlatoonVehicle) (st : State) :
    (PlatoonVehicle.set_state t st).begin_change_back = t.begin_change_back := rfl

@[simp] lemma set_state_l_msg_queue (t : PlatoonVehicle) (st : State) :
    (PlatoonVehicle.set_state t st).msg_queue = t.msg_queue := rfl

@[simp] lemma set_state_l_lanes_visited (t : PlatoonVehicle) (st : State) :
    (PlatoonVehicle.set_state t st).lanes_visited = t.lanes_visited := rfl

@[simp] lemma set_state_l_c2x (t : PlatoonVehicle) (st : State) :
    (PlatoonVehicle.set_state t st).c2x = t.c2x := rfl

@[simp] lemma set_state_l_in_new_lane (t : PlatoonVehicle) (st : State) :
    (PlatoonVehicle.set_state t st).in_new_lane = t.in_new_lane := rfl

@[simp] lemma set_state_l_lane_offset_last_step (t : PlatoonVehicle) (st : State) :
    (PlatoonVehicle.set_state t st).lane_offset_last_step = t.lane_offset_last_step := rfl

@[simp] lemma set_state_l_backoff (t : PlatoonVehicle) (st : State) :
    (PlatoonVehicle.set_state t st).backoff = t.backoff := rfl

@[simp] lemma set_state_l_follower (t : PlatoonVehicle) (st : State) :
    (PlatoonVehicle.set_state t st).follower = t.follower := rfl

@[simp] lemma set_state_l_waiting_for_reply (t : PlatoonVehicle) (st : State) :
    (PlatoonVehicle.set_state t st).waiting_for_reply = t.waiting_for_reply := rfl

@[simp] lemma set_state_l_safety_data (t : PlatoonVehicle) (st : State) :
    (PlatoonVehicle.set_state t st).safety_data = t.safety_data := rfl

@[simp] lemma set_state_l_detection_threshold (t : PlatoonVehicle) (st : State) :
    (PlatoonVehicle.set_state t st).detection_threshold = t.detection_threshold := rfl

@[simp] lemma set_state_l_ot_started (t : PlatoonVehicle) (st : State) :
    (PlatoonVehicle.set_state t st).ot_started = t.ot_started := rfl

@[simp] lemma set_state_l_abort_message (t : PlatoonVehicle) (st : State) :
    (PlatoonVehicle.set_state t st).abort_message = t.abort_message := rfl

@[simp] lemma set_state_l_leader (t : PlatoonVehicle) (st : State) :
    (PlatoonVehicle.set_state t st).leader = t.leader := rfl

@[simp] lemma send_message_l_v_id (t : PlatoonVehicle) (dst : String) (m : Message) (d : MsgData) (del : Nat) :
    (PlatoonVehicle.send_message t dst m d del).v_id = t.v_id := rfl

@[simp] lemma send_message_l_step (t : PlatoonVehicle) (dst : String) (m : Message) (d : MsgData) (del : Nat) :
    (PlatoonVehicle.send_message t dst m d del).step = t.step := rfl

@[simp] lemma send_message_l_timer (t : PlatoonVehicle) (dst : String) (m : Message) (d : MsgData) (del : Nat) :
    (PlatoonVehicle.send_message t dst m d del).timer = t.timer := rfl

@[simp] lemma send_message_l_state (t : PlatoonVehicle) (dst : String) (m : Message) (d : MsgData) (del : Nat) :
    (PlatoonVehicle.send_message t dst m d del).state = t.state := rfl

@[simp] lemma send_message_l_direction (t : PlatoonVehicle) (dst : String) (m : Message) (d : MsgData) (del : Nat) :
    (PlatoonVehicle.send_message t dst m d del).direction = t.direction := rfl

@[simp] lemma send_message_l_in_lane_change (t : PlatoonVehicle) (dst : String) (m : Message) (d : MsgData) (del : Nat) :
    (PlatoonVehicle.send_message t dst m d del).in_lane_change = t.in_lane_change := rfl

@[simp] lemma send_message_l_begin_lane_change (t : PlatoonVehicle) (dst : String) (m : Message) (d : MsgData) (del : Nat) :
    (PlatoonVehicle.send_message t dst m d del).begin_lane_change = t.begin_lane_change := rfl

@[simp] lemma send_message_l_in_change_back (t : PlatoonVehicle) (dst : String) (m : Message) (d : MsgData) (del : Nat) :
    (PlatoonVehicle.send_message t dst m d del).in_change_back = t.in_change_back := rfl

@[simp] lemma send_message_l_begin_change_back (t : PlatoonVehicle) (dst : String) (m : Message) (d : MsgData) (del : Nat) :
    (PlatoonVehicle.send_message t dst m d del).begin_change_back = t.begin_change_back := rfl

@[simp] lemma send_message_l_msg_queue (t : PlatoonVehicle) (dst : String) (m : Message) (d : MsgData) (del : Nat) :
    (PlatoonVehicle.send_message t dst m d del).msg_queue = t.msg_queue := rfl

@[simp] lemma send_message_l_lanes_visited (t : PlatoonVehicle) (dst : String) (m : Message) (d : MsgData) (del : Nat) :
    (PlatoonVehicle.send_message t dst m d del).lanes_visited = t.lanes_visited := rfl

@[simp] lemma send_message_l_in_new_lane (t : PlatoonVehicle) (dst : String) (m : Message) (d : MsgData) (del : Nat) :
    (PlatoonVehicle.send_message t dst m d del).in_new_lane = t.in_new_lane := rfl

@[simp] lemma send_message_l_lane_offset_last_step (t : PlatoonVehicle) (dst : String) (m : Message) (d : MsgData) (del : Nat) :
    (PlatoonVehicle.send_message t dst m d del).lane_offset_last_step = t.lane_offset_last_step := rfl

@[simp] lemma send_message_l_backoff (t : PlatoonVehicle) (dst : String) (m : Message) (d : MsgData) (del : Nat) :
    (PlatoonVehicle.send_message t dst m d del).backoff = t.backoff := rfl

@[simp] lemma send_message_l_follower (t : PlatoonVehicle) (dst : String) (m : Message) (d : MsgData) (del : Nat) :
    (PlatoonVehicle.send_message t dst m d del).follower = t.follower := rfl

@[simp] lemma send_message_l_waiting_for_reply (t : PlatoonVehicle) (dst : String) (m : Message) (d : MsgData) (del : Nat) :
    (PlatoonVehicle.send_message t dst m d del).waiting_for_reply = t.waiting_for_reply := rfl

@[simp] lemma send_message_l_safety_data (t : PlatoonVehicle) (dst : String) (m : Message) (d : MsgData) (del : Nat) :
    (PlatoonVehicle.send_message t dst m d del).safety_data = t.safety_data := rfl

@[simp] lemma send_message_l_detection_threshold (t : PlatoonVehicle) (dst : String) (m : Message) (d : MsgData) (del : Nat) :
    (PlatoonVehicle.send_message t dst m d del).detection_threshold = t.detection_threshold := rfl

@[simp] lemma send_message_l_states_visited (t : PlatoonVehicle) (dst : String) (m : Message) (d : MsgData) (del : Nat) :
    (PlatoonVehicle.send_message t dst m d del).states_visited = t.states_visited := rfl

@[simp] lemma send_message_l_ot_started (t : PlatoonVehicle) (dst : String) (m : Message) (d : MsgData) (del : Nat) :
    (PlatoonVehicle.send_message t dst m d del).ot_started = t.ot_started := rfl

@[simp] lemma send_message_l_abort_message (t : PlatoonVehicle) (dst : String) (m : Message) (d : MsgData) (del : Nat) :
    (PlatoonVehicle.send_message t dst m d del).abort_message = t.abort_message := rfl

@[simp] lemma send_message_l_leader (t : PlatoonVehicle) (dst : String) (m : Message) (d : MsgData) (del : Nat) :
    (PlatoonVehicle.send_message t dst m d del).leader = t.leader := rfl

/-- A sample environment reading used by concrete witnesses. -/
def sampleEnv : Env :=
  { lat_offset := 0, lane_index := 0, speed := 25, time := 0,
    lat_speed_zero := true, is_centered := true, alpha_free := true,
    beta_free := true, member_not_following := false,
    leader_detected := false, vehicles_ahead := false,
    should_overtake := false, ot_time := 0, vehicles_fr := false,
    should_overtake_fr := false, should_overtake_cl := false,
    ot_vehicles_none := false, delay := 0 }

/-- C8: the per-tick entry point increments the step counter; updates
lane-crossing detection only while mid lane-change or mid change-back
(setting `in_new_lane` on a sign flip of the lateral offset whose magnitude
exceeds `LANE_OFFSET_MIN`); deduplicates the visited-lane metric against its
last entry; replaces the local inbox by exactly the newly deliverable
channel messages (discarding the old inbox first, so a message that is in
the inbox but no longer in the channel is permanently lost); and decrements
the timer only when it is positive, so the timer never becomes negative. -/
theorem next_step_spec (e : Env) (s : PlatoonVehicle) :
    (PlatoonVehicle.next_step e s).step = s.step + 1
    ∧ (PlatoonVehicle.next_step e s).in_new_lane =
        (if (s.in_lane_change ∨ s.in_change_back) ∧
            |e.lat_offset| > par.LANE_OFFSET_MIN ∧
            s.lane_offset_last_step * e.lat_offset < 0
         then true else s.in_new_lane)
    ∧ (PlatoonVehicle.next_step e s).lane_offset_last_step =
        (if s.in_lane_change ∨ s.in_change_back then e.lat_offset
         else s.lane_offset_last_step)
    ∧ (PlatoonVehicle.next_step e s).lanes_visited =
        (if s.lanes_visited.getLast? = some e.lane_index then s.lanes_visited
         else s.lanes_visited ++ [e.lane_index])
    ∧ (PlatoonVehicle.next_step e s).msg_queue =
        (s.c2x.receive s.v_id (s.step + 1)).1
    ∧ (PlatoonVehicle.next_step e s).c2x =
        (s.c2x.receive s.v_id (s.step + 1)).2
    ∧ (∀ m : Envelope, m ∈ s.msg_queue → m ∉ s.c2x.queue →
        m ∉ (PlatoonVehicle.next_step e s).msg_queue)
    ∧ (PlatoonVehicle.next_step e s).timer =
        (if s.timer > 0 then s.timer - 1 else s.timer)
    ∧ (0 ≤ s.timer → 0 ≤ (PlatoonVehicle.next_step e s).timer) := by
  by_cases hmid : s.in_lane_change ∨ s.in_change_back
  all_goals refine ⟨?_, ?_, ?_, ?_, ?_, ?_, ?_, ?_, ?_⟩
  · simp [PlatoonVehicle.next_step, hmid]
  · simp [PlatoonVehicle.next_step, hmid]
  · simp [PlatoonVehicle.next_step, hmid]
  · simp [PlatoonVehicle.next_step, hmid]
  · simp [PlatoonVehicle.next_step, hmid]
  · simp [PlatoonVehicle.next_step, hmid]
  · intro m hm hnot
    simp [PlatoonVehicle.next_step, hmid, C2X.receive, List.mem_filter]
    intro hmem
    exact absurd hmem hnot
  · simp [PlatoonVehicle.next_step, hmid]
  · intro h0
    simp only [PlatoonVehicle.next_step]
    simp [hmid]
    split_ifs <;> omega
  · simp [PlatoonVehicle.next_step, hmid]
  · simp [PlatoonVehicle.next_step, hmid]
  · simp [PlatoonVehicle.next_step, hmid]
  · simp [PlatoonVehicle.next_step, hmid]
  · simp [PlatoonVehicle.next_step, hmid]
  · simp [PlatoonVehicle.next_step, hmid]
  · intro m hm hnot
    simp [PlatoonVehicle.next_step, hmid, C2X.receive, List.mem_filter]
    intro hmem
    exact absurd hmem hnot
  · simp [PlatoonVehicle.next_step, hmid]
  · intro h0
    simp only [PlatoonVehicle.next_step]
    simp [hmid]
    split_ifs <;> omega

/-- Witness for `next_step_spec`: from the fresh agent (timer 0), a tick
leaves the timer non-negative. -/
theorem next_step_spec_witness :
    ((0 : Int) ≤ (PlatoonVehicle.init "A" (C2X.mk [] [] 0) [] "").timer) ∧
    (0 : Int) ≤ (PlatoonVehicle.next_step sampleEnv
        (PlatoonVehicle.init "A" (C2X.mk [] [] 0) [] "")).timer :=
  ⟨by decide,
    (next_step_spec sampleEnv
      (PlatoonVehicle.init "A" (C2X.mk [] [] 0) [] "")).2.2.2.2.2.2.2.2
      (by decide)⟩

/-- C6: in WAIT_FOR_RESPONSES, on timer expiry with outstanding followers
remaining the leader clears the outstanding set and moves to
LANE_CHANGE_ABORTED in that same tick, leaving the buffered responses
unconsumed; otherwise it consumes exactly the buffered sensor-data
responses (appending their payloads to the safety buffer and erasing each
responder from the outstanding set, a no-op for duplicate or unexpected
responders), and moves to ASSERT_MANEUVER_AREA exactly when the outstanding
set becomes empty. -/
theorem wait_for_responses_spec (s : PlatoonVehicle)
    (hst : s.state = State.WAIT_FOR_RESPONSES) :
    (s.timer = 0 → s.waiting_for_reply ≠ [] →
      (PlatoonLeader.wait_for_responses s).waiting_for_reply = []
      ∧ (PlatoonLeader.wait_for_responses s).state =
          State.LANE_CHANGE_ABORTED
      ∧ (PlatoonLeader.wait_for_responses s).msg_queue = s.msg_queue
      ∧ (PlatoonLeader.wait_for_responses s).safety_data = s.safety_data)
    ∧ (s.timer ≠ 0 →
      (PlatoonLeader.wait_for_responses s).safety_data =
        s.safety_data ++ (s.msg_queue.filter
          (fun m => decide (m.msg = Message.RESP_SENSOR_DATA))).map
            (fun m => m.data)
      ∧ (PlatoonLeader.wait_for_responses s).waiting_for_reply =
          (s.msg_queue.filter
            (fun m => decide (m.msg = Message.RESP_SENSOR_DATA))).foldl
              (fun w m => w.erase m.src) s.waiting_for_reply
      ∧ (PlatoonLeader.wait_for_responses s).msg_queue =
          s.msg_queue.filter
            (fun m => decide (m.msg ≠ Message.RESP_SENSOR_DATA))
      ∧ ((PlatoonLeader.wait_for_responses s).state =
            State.ASSERT_MANEUVER_AREA ↔
          (s.msg_queue.filter
            (fun m => decide (m.msg = Message.RESP_SENSOR_DATA))).foldl
              (fun w m => w.erase m.src) s.waiting_for_reply = [])) := by
  constructor
  · intro ht _
    simp [PlatoonLeader.wait_for_responses, ht]
  · intro ht
    by_cases hw : (s.msg_queue.filter
        (fun m => decide (m.msg = Message.RESP_SENSOR_DATA))).foldl
          (fun w m => w.erase m.src) s.waiting_for_reply = []
    · simp [PlatoonLeader.wait_for_responses, ht,
        PlatoonVehicle.get_messages_by_type, hw]
    · simp only [PlatoonLeader.wait_for_responses, ht,
        PlatoonVehicle.get_messages_by_type, if_false, if_neg ht, hw,
        if_neg hw]
      refine ⟨trivial, trivial, trivial, ?_⟩
      simp only [hw, iff_false]
      intro habs
      rw [hst] at habs
      exact absurd habs (by decide)

/-- Witness for `wait_for_responses_spec`: a leader in WAIT_FOR_RESPONSES
with an expired timer and follower "F" still outstanding aborts with an
empty outstanding set. -/
theorem wait_for_responses_spec_witness :
    (({ PlatoonVehicle.init "L" (C2X.mk [] [] 0) ["F"] "" with
          state := State.WAIT_FOR_RESPONSES,
          waiting_for_reply := ["F"] } : PlatoonVehicle).state =
        State.WAIT_FOR_RESPONSES) ∧
    (PlatoonLeader.wait_for_responses
      { PlatoonVehicle.init "L" (C2X.mk [] [] 0) ["F"] "" with
        state := State.WAIT_FOR_RESPONSES,
        waiting_for_reply := ["F"] }).waiting_for_reply = [] ∧
    (PlatoonLeader.wait_for_responses
      { PlatoonVehicle.init "L" (C2X.mk [] [] 0) ["F"] "" with
        state := State.WAIT_FOR_RESPONSES,
        waiting_for_reply := ["F"] }).state = State.LANE_CHANGE_ABORTED := by
  refine ⟨rfl, ?_⟩
  have h := (wait_for_responses_spec
    { PlatoonVehicle.init "L" (C2X.mk [] [] 0) ["F"] "" with
      state := State.WAIT_FOR_RESPONSES,
      waiting_for_reply := ["F"] } rfl).1 (by decide) (by decide)
  exact ⟨h.1, h.2.1⟩



/-! Projections of the `get_messages_by_type` result pair. -/

@[simp] lemma get_messages_by_type_fst (t : PlatoonVehicle) (m : Message) :
    (t.get_messages_by_type m).1 = t.msg_queue.filter (fun x => decide (x.msg = m)) := rfl

@[simp] lemma get_messages_by_type_snd_msg_queue (t : PlatoonVehicle) (m : Message) :
    (t.get_messages_by_type m).2.msg_queue = t.msg_queue.filter (fun x => decide (x.msg ≠ m)) := rfl

@[simp] lemma get_messages_by_type_snd_v_id (t : PlatoonVehicle) (m : Message) :
    (t.get_messages_by_type m).2.v_id = t.v_id := rfl

@[simp] lemma get_messages_by_type_snd_step (t : PlatoonVehicle) (m : Message) :
    (t.get_messages_by_type m).2.step = t.step := rfl

@[simp] lemma get_messages_by_type_snd_timer (t : PlatoonVehicle) (m : Message) :
    (t.get_messages_by_type m).2.timer = t.timer := rfl

@[simp] lemma get_messages_by_type_snd_state (t : PlatoonVehicle) (m : Message) :
    (t.get_messages_by_type m).2.state = t.state := rfl

@[simp] lemma get_messages_by_type_snd_direction (t : PlatoonVehicle) (m : Message) :
    (t.get_messages_by_type m).2.direction = t.direction := rfl

@[simp] lemma get_messages_by_type_snd_in_lane_change (t : PlatoonVehicle) (m : Message) :
    (t.get_messages_by_type m).2.in_lane_change = t.in_lane_change := rfl

@[simp] lemma get_messages_by_type_snd_begin_lane_change (t : PlatoonVehicle) (m : Message) :
    (t.get_messages_by_type m).2.begin_lane_change = t.begin_lane_change := rfl

@[simp] lemma get_messages_by_type_snd_in_change_back (t : PlatoonVehicle) (m : Message) :
    (t.get_messages_by_type m).2.in_change_back = t.in_change_back := rfl

@[simp] lemma get_messages_by_type_snd_begin_change_back (t : PlatoonVehicle) (m : Message) :
    (t.get_messages_by_type m).2.begin_change_back = t.begin_change_back := rfl

@[simp] lemma get_messages_by_type_snd_lanes_visited (t : PlatoonVehicle) (m : Message) :
    (t.get_messages_by_type m).2.lanes_visited = t.lanes_visited := rfl

@[simp] lemma get_messages_by_type_snd_c2x (t : PlatoonVehicle) (m : Message) :
    (t.get_messages_by_type m).2.c2x = t.c2x := rfl

@[simp] lemma get_messages_by_type_snd_in_new_lane (t : PlatoonVehicle) (m : Message) :
    (t.get_messages_by_type m).2.in_new_lane = t.in_new_lane := rfl

@[simp] lemma get_messages_by_type_snd_lane_offset_last_step (t : PlatoonVehicle) (m : Message) :
    (t.get_messages_by_type m).2.lane_offset_last_step = t.lane_offset_last_step := rfl

@[simp] lemma get_messages_by_type_snd_backoff (t : PlatoonVehicle) (m : Message) :
    (t.get_messages_by_type m).2.backoff = t.backoff := rfl

@[simp] lemma get_messages_by_type_snd_follower (t : PlatoonVehicle) (m : Message) :
    (t.get_messages_by_type m).2.follower = t.follower := rfl

@[simp] lemma get_messages_by_type_snd_waiting_for_reply (t : PlatoonVehicle) (m : Message) :
    (t.get_messages_by_type m).2.waiting_for_reply = t.waiting_for_reply := rfl

@[simp] lemma get_messages_by_type_snd_safety_data (t : PlatoonVehicle) (m : Message) :
    (t.get_messages_by_type m).2.safety_data = t.safety_data := rfl

@[simp] lemma get_messages_by_type_snd_detection_threshold (t : PlatoonVehicle) (m : Message) :
    (t.get_messages_by_type m).2.detection_threshold = t.detection_threshold := rfl

@[simp] lemma get_messages_by_type_snd_states_visited (t : PlatoonVehicle) (m : Message) :
    (t.get_messages_by_type m).2.states_visited = t.states_visited := rfl

@[simp] lemma get_messages_by_type_snd_ot_started (t : PlatoonVehicle) (m : Message) :
    (t.get_messages_by_type m).2.ot_started = t.ot_started := rfl

@[simp] lemma get_messages_by_type_snd_abort_message (t : PlatoonVehicle) (m : Message) :
    (t.get_messages_by_type m).2.abort_message = t.abort_message := rfl

@[simp] lemma get_messages_by_type_snd_leader (t : PlatoonVehicle) (m : Message) :
    (t.get_messages_by_type m).2.leader = t.leader := rfl


/-! Projections commute with `ite` (lets `simp` push field access through the branch structure of the handlers). -/

@[simp] lemma ite_proj_v_id (c : Prop) [Decidable c] (a b : PlatoonVehicle) :
    (ite c a b).v_id = ite c a.v_id b.v_id := by split <;> rfl

@[simp] lemma ite_proj_step (c : Prop) [Decidable c] (a b : PlatoonVehicle) :
    (ite c a b).step = ite c a.step b.step := by split <;> rfl

@[simp] lemma ite_proj_timer (c : Prop) [Decidable c] (a b : PlatoonVehicle) :
    (ite c a b).timer = ite c a.timer b.timer := by split <;> rfl

@[simp] lemma ite_proj_state (c : Prop) [Decidable c] (a b : PlatoonVehicle) :
    (ite c a b).state = ite c a.state b.state := by split <;> rfl

@[simp] lemma ite_proj_direction (c : Prop) [Decidable c] (a b : PlatoonVehicle) :
    (ite c a b).direction = ite c a.direction b.direction := by split <;> rfl

@[simp] lemma ite_proj_in_lane_change (c : Prop) [Decidable c] (a b : PlatoonVehicle) :
    (ite c a b).in_lane_change = ite c a.in_lane_change b.in_lane_change := by split <;> rfl

@[simp] lemma ite_proj_begin_lane_change (c : Prop) [Decidable c] (a b : PlatoonVehicle) :
    (ite c a b).begin_lane_change = ite c a.begin_lane_change b.begin_lane_change := by split <;> rfl

@[simp] lemma ite_proj_in_change_back (c : Prop) [Decidable c] (a b : PlatoonVehicle) :
    (ite c a b).in_change_back = ite c a.in_change_back b.in_change_back := by split <;> rfl

@[simp] lemma ite_proj_begin_change_back (c : Prop) [Decidable c] (a b : PlatoonVehicle) :
    (ite c a b).begin_change_back = ite c a.begin_change_back b.begin_change_back := by split <;> rfl

@[simp] lemma ite_proj_msg_queue (c : Prop) [Decidable c] (a b : PlatoonVehicle) :
    (ite c a b).msg_queue = ite c a.msg_queue b.msg_queue := by split <;> rfl

@[simp] lemma ite_proj_lanes_visited (c : Prop) [Decidable c] (a b : PlatoonVehicle) :
    (ite c a b).lanes_visited = ite c a.lanes_visited b.lanes_visited := by split <;> rfl

@[simp] lemma ite_proj_c2x (c : Prop) [Decidable c] (a b : PlatoonVehicle) :
    (ite c a b).c2x = ite c a.c2x b.c2x := by split <;> rfl

@[simp] lemma ite_proj_in_new_lane (c : Prop) [Decidable c] (a b : PlatoonVehicle) :
    (ite c a b).in_new_lane = ite c a.in_new_lane b.in_new_lane := by split <;> rfl

@[simp] lemma ite_proj_lane_offset_last_step (c : Prop) [Decidable c] (a b : PlatoonVehicle) :
    (ite c a b).lane_offset_last_step = ite c a.lane_offset_last_step b.lane_offset_last_step := by split <;> rfl

@[simp] lemma ite_proj_backoff (c : Prop) [Decidable c] (a b : PlatoonVehicle) :
    (ite c a b).backoff = ite c a.backoff b.backoff := by split <;> rfl

@[simp] lemma ite_proj_follower (c : Prop) [Decidable c] (a b : PlatoonVehicle) :
    (ite c a b).follower = ite c a.follower b.follower := by split <;> rfl

@[simp] lemma ite_proj_waiting_for_reply (c : Prop) [Decidable c] (a b : PlatoonVehicle) :
    (ite c a b).waiting_for_reply = ite c a.waiting_for_reply b.waiting_for_reply := by split <;> rfl

@[simp] lemma ite_proj_safety_data (c : Prop) [Decidable c] (a b : PlatoonVehicle) :
    (ite c a b).safety_data = ite c a.safety_data b.safety_data := by split <;> rfl

@[simp] lemma ite_proj_detection_threshold (c : Prop) [Decidable c] (a b : PlatoonVehicle) :
    (ite c a b).detection_threshold = ite c a.detection_threshold b.detection_threshold := by split <;> rfl

@[simp] lemma ite_proj_states_visited (c : Prop) [Decidable c] (a b : PlatoonVehicle) :
    (ite c a b).states_visited = ite c a.states_visited b.states_visited := by split <;> rfl

@[simp] lemma ite_proj_ot_started (c : Prop) [Decidable c] (a b : PlatoonVehicle) :
    (ite c a b).ot_started = ite c a.ot_started b.ot_started := by split <;> rfl

@[simp] lemma ite_proj_abort_message (c : Prop) [Decidable c] (a b : PlatoonVehicle) :
    (ite c a b).abort_message = ite c a.abort_message b.abort_message := by split <;> rfl

@[simp] lemma ite_proj_leader (c : Prop) [Decidable c] (a b : PlatoonVehicle) :
    (ite c a b).leader = ite c a.leader b.leader := by split <;> rfl

/-! Invariance of `in_change_back` and `backoff` under the handlers that do not touch them. -/

@[simp] lemma icb_veh_changing_lane (e : Env) (t : PlatoonVehicle) :
    (PlatoonVehicle.changing_lane e t).in_change_back = t.in_change_back := by
  simp only [PlatoonVehicle.changing_lane]
  repeat' split
  all_goals simp

@[simp] lemma backoff_veh_changing_lane (e : Env) (t : PlatoonVehicle) :
    (PlatoonVehicle.changing_lane e t).backoff = t.backoff := by
  simp only [PlatoonVehicle.changing_lane]
  repeat' split
  all_goals simp

@[simp] lemma backoff_veh_changing_back (e : Env) (t : PlatoonVehicle) :
    (PlatoonVehicle.changing_back e t).backoff = t.backoff := by
  simp only [PlatoonVehicle.changing_back]
  repeat' split
  all_goals simp

@[simp] lemma icb_veh_lane_change_complete (t : PlatoonVehicle) :
    (PlatoonVehicle.lane_change_complete t).in_change_back = t.in_change_back := by
  simp only [PlatoonVehicle.lane_change_complete]

@[simp] lemma backoff_veh_lane_change_complete (t : PlatoonVehicle) :
    (PlatoonVehicle.lane_change_complete t).backoff = t.backoff := by
  simp only [PlatoonVehicle.lane_change_complete]

@[simp] lemma icb_lead_handle_abort (t : PlatoonVehicle) :
    (PlatoonLeader.handle_abort t).in_change_back = t.in_change_back := by
  simp only [PlatoonLeader.handle_abort]
  all_goals simp

@[simp] lemma backoff_lead_handle_abort (t : PlatoonVehicle) :
    (PlatoonLeader.handle_abort t).backoff = t.backoff := by
  simp only [PlatoonLeader.handle_abort]
  all_goals simp

@[simp] lemma icb_lead_idle (e : Env) (t : PlatoonVehicle) :
    (PlatoonLeader.idle e t).in_change_back = t.in_change_back := by
  simp only [PlatoonLeader.idle]
  repeat' split
  all_goals simp

@[simp] lemma backoff_lead_idle (e : Env) (t : PlatoonVehicle) :
    (PlatoonLeader.idle e t).backoff = t.backoff := by
  simp only [PlatoonLeader.idle]
  repeat' split
  all_goals simp

@[simp] lemma icb_lead_vehicle_ahead (e : Env) (t : PlatoonVehicle) :
    (PlatoonLeader.vehicle_ahead e t).in_change_back = t.in_change_back := by
  simp only [PlatoonLeader.vehicle_ahead]
  repeat' split
  all_goals simp

@[simp] lemma backoff_lead_vehicle_ahead (e : Env) (t : PlatoonVehicle) :
    (PlatoonLeader.vehicle_ahead e t).backoff = t.backoff := by
  simp only [PlatoonLeader.vehicle_ahead]
  repeat' split
  all_goals simp

@[simp] lemma icb_lead_passing (e : Env) (t : PlatoonVehicle) :
    (PlatoonLeader.passing e t).in_change_back = t.in_change_back := by
  simp only [PlatoonLeader.passing]
  repeat' split
  all_goals simp

@[simp] lemma backoff_lead_passing (e : Env) (t : PlatoonVehicle) :
    (PlatoonLeader.passing e t).backoff = t.backoff := by
  simp only [PlatoonLeader.passing]
  repeat' split
  all_goals simp

@[simp] lemma icb_lead_overtaking_complete (t : PlatoonVehicle) :
    (PlatoonLeader.overtaking_complete t).in_change_back = t.in_change_back := by
  simp only [PlatoonLeader.overtaking_complete]
  all_goals simp

@[simp] lemma backoff_lead_overtaking_complete (t : PlatoonVehicle) :
    (PlatoonLeader.overtaking_complete t).backoff = t.backoff := by
  simp only [PlatoonLeader.overtaking_complete]
  all_goals simp

@[simp] lemma icb_lead_assert_own_areas (e : Env) (t : PlatoonVehicle) :
    (PlatoonLeader.assert_own_areas e t).in_change_back = t.in_change_back := by
  simp only [PlatoonLeader.assert_own_areas]
  repeat' split
  all_goals simp

@[simp] lemma backoff_lead_assert_own_areas (e : Env) (t : PlatoonVehicle) :
    (PlatoonLeader.assert_own_areas e t).backoff = t.backoff := by
  simp only [PlatoonLeader.assert_own_areas]
  repeat' split
  all_goals simp

@[simp] lemma icb_lead_request_sensor_data (e : Env) (t : PlatoonVehicle) :
    (PlatoonLeader.request_sensor_data e t).in_change_back = t.in_change_back := by
  simp only [PlatoonLeader.request_sensor_data]
  all_goals simp

@[simp] lemma backoff_lead_request_sensor_data (e : Env) (t : PlatoonVehicle) :
    (PlatoonLeader.request_sensor_data e t).backoff = t.backoff := by
  simp only [PlatoonLeader.request_sensor_data]
  all_goals simp

@[simp] lemma icb_lead_wait_for_responses (t : PlatoonVehicle) :
    (PlatoonLeader.wait_for_responses t).in_change_back = t.in_change_back := by
  simp only [PlatoonLeader.wait_for_responses, PlatoonVehicle.get_messages_by_type]
  repeat' split
  all_goals simp

@[simp] lemma backoff_lead_wait_for_responses (t : PlatoonVehicle) :
    (PlatoonLeader.wait_for_responses t).backoff = t.backoff := by
  simp only [PlatoonLeader.wait_for_responses, PlatoonVehicle.get_messages_by_type]
  repeat' split
  all_goals simp

@[simp] lemma icb_lead_assert_maneuver_area (t : PlatoonVehicle) :
    (PlatoonLeader.assert_maneuver_area t).in_change_back = t.in_change_back := by
  simp only [PlatoonLeader.assert_maneuver_area]
  repeat' split
  all_goals simp

@[simp] lemma backoff_lead_assert_maneuver_area (t : PlatoonVehicle) :
    (PlatoonLeader.assert_maneuver_area t).backoff = t.backoff := by
  simp only [PlatoonLeader.assert_maneuver_area]
  repeat' split
  all_goals simp

@[simp] lemma icb_lead_lane_change_aborted (t : PlatoonVehicle) :
    (PlatoonLeader.lane_change_aborted t).in_change_back = t.in_change_back := by
  simp only [PlatoonLeader.lane_change_aborted, PlatoonLeader.set_backoff_timer]
  repeat' split
  all_goals simp

@[simp] lemma icb_lead_lane_change_safe (e : Env) (t : PlatoonVehicle) :
    (PlatoonLeader.lane_change_safe e t).in_change_back = t.in_change_back := by
  simp only [PlatoonLeader.lane_change_safe]
  all_goals simp

@[simp] lemma icb_lead_changing_lane (e : Env) (t : PlatoonVehicle) :
    (PlatoonLeader.changing_lane e t).in_change_back = t.in_change_back := by
  simp [PlatoonLeader.changing_lane]

@[simp] lemma backoff_lead_changing_lane (e : Env) (t : PlatoonVehicle) :
    (PlatoonLeader.changing_lane e t).backoff = t.backoff := by
  simp [PlatoonLeader.changing_lane]

@[simp] lemma icb_lead_lane_change_complete (e : Env) (t : PlatoonVehicle) :
    (PlatoonLeader.lane_change_complete e t).in_change_back = t.in_change_back := by
  simp only [PlatoonLeader.lane_change_complete, PlatoonVehicle.lane_change_complete]
  repeat' split
  all_goals simp

@[simp] lemma backoff_lead_lane_change_complete (e : Env) (t : PlatoonVehicle) :
    (PlatoonLeader.lane_change_complete e t).backoff = t.backoff := by
  simp only [PlatoonLeader.lane_change_complete, PlatoonVehicle.lane_change_complete]
  repeat' split
  all_goals simp

@[simp] lemma icb_lead_abort (e : Env) (t : PlatoonVehicle) :
    (PlatoonLeader.abort e t).in_change_back = t.in_change_back := by
  simp only [PlatoonLeader.abort]
  all_goals simp

@[simp] lemma backoff_lead_abort (e : Env) (t : PlatoonVehicle) :
    (PlatoonLeader.abort e t).backoff = t.backoff := by
  simp only [PlatoonLeader.abort]
  all_goals simp

@[simp] lemma backoff_lead_changing_back (e : Env) (t : PlatoonVehicle) :
    (PlatoonLeader.changing_back e t).backoff = t.backoff := by
  simp only [PlatoonLeader.changing_back, PlatoonVehicle.changing_back, PlatoonVehicle.get_messages_by_type]
  repeat' split
  all_goals simp

@[simp] lemma icb_fol_idle (e : Env) (t : PlatoonVehicle) :
    (PlatoonFollower.idle e t).in_change_back = t.in_change_back := by
  simp only [PlatoonFollower.idle, PlatoonVehicle.get_messages_by_type]
  repeat' split
  all_goals simp

@[simp] lemma backoff_fol_idle (e : Env) (t : PlatoonVehicle) :
    (PlatoonFollower.idle e t).backoff = t.backoff := by
  simp only [PlatoonFollower.idle, PlatoonVehicle.get_messages_by_type]
  repeat' split
  all_goals simp

@[simp] lemma icb_fol_assert_own_areas (e : Env) (t : PlatoonVehicle) :
    (PlatoonFollower.assert_own_areas e t).in_change_back = t.in_change_back := by
  simp only [PlatoonFollower.assert_own_areas]
  all_goals simp

@[simp] lemma backoff_fol_assert_own_areas (e : Env) (t : PlatoonVehicle) :
    (PlatoonFollower.assert_own_areas e t).backoff = t.backoff := by
  simp only [PlatoonFollower.assert_own_areas]
  all_goals simp

@[simp] lemma icb_fol_wait_for_decision (t : PlatoonVehicle) :
    (PlatoonFollower.wait_for_decision t).in_change_back = t.in_change_back := by
  simp only [PlatoonFollower.wait_for_decision, PlatoonVehicle.get_messages_by_type]
  repeat' split
  all_goals simp

@[simp] lemma backoff_fol_wait_for_decision (t : PlatoonVehicle) :
    (PlatoonFollower.wait_for_decision t).backoff = t.backoff := by
  simp only [PlatoonFollower.wait_for_decision, PlatoonVehicle.get_messages_by_type]
  repeat' split
  all_goals simp

@[simp] lemma icb_fol_changing_lane (e : Env) (t : PlatoonVehicle) :
    (PlatoonFollower.changing_lane e t).in_change_back = t.in_change_back := by
  simp [PlatoonFollower.changing_lane]

@[simp] lemma backoff_fol_changing_lane (e : Env) (t : PlatoonVehicle) :
    (PlatoonFollower.changing_lane e t).backoff = t.backoff := by
  simp [PlatoonFollower.changing_lane]

@[simp] lemma icb_fol_halcm (t : PlatoonVehicle) :
    (PlatoonFollower.handle_abort_and_lc_complete_messages t).in_change_back = t.in_change_back := by
  simp only [PlatoonFollower.handle_abort_and_lc_complete_messages, PlatoonVehicle.get_messages_by_type]
  repeat' split
  all_goals simp

@[simp] lemma backoff_fol_halcm (t : PlatoonVehicle) :
    (PlatoonFollower.handle_abort_and_lc_complete_messages t).backoff = t.backoff := by
  simp only [PlatoonFollower.handle_abort_and_lc_complete_messages, PlatoonVehicle.get_messages_by_type]
  repeat' split
  all_goals simp

@[simp] lemma icb_fol_lane_changed (e : Env) (t : PlatoonVehicle) :
    (PlatoonFollower.lane_changed e t).in_change_back = t.in_change_back := by
  simp only [PlatoonFollower.lane_changed, PlatoonFollower.handle_abort_and_lc_complete_messages, PlatoonVehicle.get_messages_by_type]
  repeat' split
  all_goals simp

@[simp] lemma backoff_fol_lane_changed (e : Env) (t : PlatoonVehicle) :
    (PlatoonFollower.lane_changed e t).backoff = t.backoff := by
  simp only [PlatoonFollower.lane_changed, PlatoonFollower.handle_abort_and_lc_complete_messages, PlatoonVehicle.get_messages_by_type]
  repeat' split
  all_goals simp

@[simp] lemma icb_fol_in_overtaking_lane (t : PlatoonVehicle) :
    (PlatoonFollower.in_overtaking_lane t).in_change_back = t.in_change_back := by
  simp only [PlatoonFollower.in_overtaking_lane, PlatoonFollower.handle_abort_and_lc_complete_messages, PlatoonVehicle.get_messages_by_type]
  repeat' split
  all_goals simp

@[simp] lemma backoff_fol_in_overtaking_lane (t : PlatoonVehicle) :
    (PlatoonFollower.in_overtaking_lane t).backoff = t.backoff := by
  simp only [PlatoonFollower.in_overtaking_lane, PlatoonFollower.handle_abort_and_lc_complete_messages, PlatoonVehicle.get_messages_by_type]
  repeat' split
  all_goals simp

@[simp] lemma icb_fol_lane_change_complete (t : PlatoonVehicle) :
    (PlatoonFollower.lane_change_complete t).in_change_back = t.in_change_back := by
  simp only [PlatoonFollower.lane_change_complete, PlatoonVehicle.lane_change_complete]
  all_goals simp

@[simp] lemma backoff_fol_lane_change_complete (t : PlatoonVehicle) :
    (PlatoonFollower.lane_change_complete t).backoff = t.backoff := by
  simp only [PlatoonFollower.lane_change_complete, PlatoonVehicle.lane_change_complete]
  all_goals simp

@[simp] lemma icb_fol_abort (e : Env) (t : PlatoonVehicle) :
    (PlatoonFollower.abort e t).in_change_back = t.in_change_back := by
  simp only [PlatoonFollower.abort]
  all_goals simp

@[simp] lemma backoff_fol_abort (e : Env) (t : PlatoonVehicle) :
    (PlatoonFollower.abort e t).backoff = t.backoff := by
  simp only [PlatoonFollower.abort]
  all_goals simp

@[simp] lemma icb_fol_in_original_lane (e : Env) (t : PlatoonVehicle) :
    (PlatoonFollower.in_original_lane e t).in_change_back = t.in_change_back := by
  simp only [PlatoonFollower.in_original_lane]
  all_goals simp

@[simp] lemma backoff_fol_in_original_lane (e : Env) (t : PlatoonVehicle) :
    (PlatoonFollower.in_original_lane e t).backoff = t.backoff := by
  simp only [PlatoonFollower.in_original_lane]
  all_goals simp

/-- An environment for a mid-maneuver tick on which the lane change is still
underway (nonzero lateral speed, areas free, members following) but the
should-overtake re-validation fails. -/
def failEnvC : Env := { sampleEnv with lat_speed_zero := false }

/-- A leader mid-CHANGING_LANE with a fresh (zero) consecutive-failure
counter, no pending messages and an empty channel. -/
def clStart : PlatoonVehicle :=
  { PlatoonVehicle.init "L" (C2X.mk [] [] 0) ["F"] "" with
    state := State.CHANGING_LANE, in_lane_change := true }

/-- One ordinary mid-maneuver tick of the CHANGING_LANE handler: with no
buffered messages, the lane change still running (nonzero lateral speed,
areas free, members following) and direction LEFT, a failing re-validation
increments the debounce counter and aborts exactly when
`MAX_NOT_DETECTED` is exceeded, while a passing one resets the counter. -/
lemma changing_lane_step (e : Env) (s : PlatoonVehicle)
    (hst : s.state = State.CHANGING_LANE) (hilc : s.in_lane_change = true)
    (hblc : s.begin_lane_change = false) (hbcb : s.begin_change_back = false)
    (hdir : s.direction = Direction.LEFT) (hq : s.msg_queue = [])
    (hlat : e.lat_speed_zero = false) (hal : e.alpha_free = true)
    (hbe : e.beta_free = true) (hmem : e.member_not_following = false) :
    (e.should_overtake_cl = false →
      (PlatoonLeader.changing_lane e s).detection_threshold =
        s.detection_threshold + 1
      ∧ (s.detection_threshold + 1 > par.MAX_NOT_DETECTED →
          (PlatoonLeader.changing_lane e s).state = State.ABORT)
      ∧ (¬ s.detection_threshold + 1 > par.MAX_NOT_DETECTED →
          (PlatoonLeader.changing_lane e s).state = State.CHANGING_LANE
          ∧ (PlatoonLeader.changing_lane e s).in_lane_change = true
          ∧ (PlatoonLeader.changing_lane e s).begin_lane_change = false
          ∧ (PlatoonLeader.changing_lane e s).begin_change_back = false
          ∧ (PlatoonLeader.changing_lane e s).direction = Direction.LEFT
          ∧ (PlatoonLeader.changing_lane e s).msg_queue = []
          ∧ (PlatoonLeader.changing_lane e s).c2x = s.c2x))
    ∧ (e.should_overtake_cl = true →
      (PlatoonLeader.changing_lane e s).detection_threshold = 0
      ∧ (PlatoonLeader.changing_lane e s).state = State.CHANGING_LANE) := by
  constructor
  · intro hso
    simp only [PlatoonLeader.changing_lane, PlatoonVehicle.changing_lane,
      PlatoonVehicle.get_messages_by_type, hq, List.filter_nil, hst, hilc,
      hblc, hbcb, hdir, hlat, hal, hbe, hmem, hso]
    by_cases hcmp : par.MAX_NOT_DETECTED < s.detection_threshold + 1 <;>
      simp [hcmp, PlatoonLeader.handle_abort, PlatoonVehicle.set_state]
  · intro hso
    simp only [PlatoonLeader.changing_lane, PlatoonVehicle.changing_lane,
      PlatoonVehicle.get_messages_by_type, hq, List.filter_nil, hst, hilc,
      hblc, hbcb, hdir, hlat, hal, hbe, hmem, hso]
    simp [PlatoonLeader.handle_abort, PlatoonVehicle.set_state]

/-- A leader tick in a "failing re-validation run": mid-CHANGING_LANE with
empty inbox and channel, direction LEFT, debounce counter `n`. -/
def FailP (s : PlatoonVehicle) (n : Nat) : Prop :=
  s.state = State.CHANGING_LANE ∧ s.in_lane_change = true ∧
  s.begin_lane_change = false ∧ s.begin_change_back = false ∧
  s.direction = Direction.LEFT ∧ s.msg_queue = [] ∧ s.c2x.queue = [] ∧
  s.detection_threshold = n

lemma fail_run_step (n : Nat) (s : PlatoonVehicle) (h : FailP s n) :
    (n + 1 ≤ par.MAX_NOT_DETECTED →
      FailP (PlatoonLeader.next_step failEnvC s) (n + 1))
    ∧ (par.MAX_NOT_DETECTED < n + 1 →
      (PlatoonLeader.next_step failEnvC s).state = State.ABORT ∧
      (PlatoonLeader.next_step failEnvC s).detection_threshold = n + 1) := by
  obtain ⟨hst, hilc, hblc, hbcb, hdir, hq, hcq, hdt⟩ := h
  -- the shared prelude leaves all the relevant fields unchanged and the
  -- inbox and channel empty
  have p1 : (PlatoonVehicle.next_step failEnvC s).state = s.state := by
    simp [PlatoonVehicle.next_step, hilc]
  have p2 : (PlatoonVehicle.next_step failEnvC s).in_lane_change =
      s.in_lane_change := by simp [PlatoonVehicle.next_step, hilc]
  have p3 : (PlatoonVehicle.next_step failEnvC s).begin_lane_change =
      s.begin_lane_change := by simp [PlatoonVehicle.next_step, hilc]
  have p4 : (PlatoonVehicle.next_step failEnvC s).begin_change_back =
      s.begin_change_back := by simp [PlatoonVehicle.next_step, hilc]
  have p5 : (PlatoonVehicle.next_step failEnvC s).direction = s.direction :=
    by simp [PlatoonVehicle.next_step, hilc]
  have p6 : (PlatoonVehicle.next_step failEnvC s).msg_queue = [] := by
    simp [PlatoonVehicle.next_step, hilc, hq, C2X.receive, hcq]
  have p7 : (PlatoonVehicle.next_step failEnvC s).c2x.queue = [] := by
    simp [PlatoonVehicle.next_step, hilc, C2X.receive, hcq]
  have p8 : (PlatoonVehicle.next_step failEnvC s).detection_threshold = n :=
    by simp [PlatoonVehicle.next_step, hilc, hdt]
  have hd : PlatoonLeader.next_step failEnvC s =
      PlatoonLeader.changing_lane failEnvC
        (PlatoonVehicle.next_step failEnvC s) := by
    rw [PlatoonLeader.next_step]
    rw [PlatoonLeader.dispatch.eq_def, p1, hst]
  have hstep := changing_lane_step failEnvC
    (PlatoonVehicle.next_step failEnvC s) (p1.trans hst) (p2.trans hilc)
    (p3.trans hblc) (p4.trans hbcb) (p5.trans hdir) p6 rfl rfl rfl rfl
  have hfail := hstep.1 rfl
  constructor
  · intro hle
    have hnot : ¬ n + 1 > par.MAX_NOT_DETECTED := by omega
    rw [p8] at hfail
    obtain ⟨hdt2, _, hrest⟩ := hfail
    obtain ⟨r1, r2, r3, r4, r5, r6, r7⟩ := hrest hnot
    rw [hd]
    exact ⟨r1, r2, r3, r4, r5, r6, by rw [r7]; exact p7, hdt2⟩
  · intro hgt
    have hyes : n + 1 > par.MAX_NOT_DETECTED := hgt
    rw [p8] at hfail
    obtain ⟨hdt2, habort, _⟩ := hfail
    rw [hd]
    exact ⟨habort hyes, hdt2⟩

lemma fail_run_start : FailP clStart 0 := by
  refine ⟨rfl, rfl, rfl, rfl, rfl, rfl, rfl, rfl⟩

/-- C7: mid-CHANGING_LANE (maneuver still running, no buffered messages),
a tick whose should-overtake re-validation fails increments the
consecutive-failure counter and aborts exactly when the counter passes
`MAX_NOT_DETECTED`, while a tick on which the re-validation holds resets the
counter to zero; consequently, starting from a fresh counter,
`MAX_NOT_DETECTED` consecutive failing ticks leave the leader in
CHANGING_LANE with counter `MAX_NOT_DETECTED`, and the
`MAX_NOT_DETECTED + 1`-st consecutive failing tick moves it to ABORT. -/
theorem changing_lane_detection_debounce :
    (∀ (e : Env) (s : PlatoonVehicle),
      s.state = State.CHANGING_LANE →
      s.in_lane_change = true → s.begin_lane_change = false →
      s.begin_change_back = false → s.direction = Direction.LEFT →
      s.msg_queue = [] →
      e.lat_speed_zero = false → e.alpha_free = true → e.beta_free = true →
      e.member_not_following = false →
      (e.should_overtake_cl = false →
        (PlatoonLeader.changing_lane e s).detection_threshold =
          s.detection_threshold + 1
        ∧ (PlatoonLeader.changing_lane e s).state =
            (if s.detection_threshold + 1 > par.MAX_NOT_DETECTED
             then State.ABORT else State.CHANGING_LANE))
      ∧ (e.should_overtake_cl = true →
        (PlatoonLeader.changing_lane e s).detection_threshold = 0
        ∧ (PlatoonLeader.changing_lane e s).state = State.CHANGING_LANE))
    ∧ ((PlatoonLeader.next_step failEnvC)^[par.MAX_NOT_DETECTED]
        clStart).state = State.CHANGING_LANE
    ∧ ((PlatoonLeader.next_step failEnvC)^[par.MAX_NOT_DETECTED]
        clStart).detection_threshold = par.MAX_NOT_DETECTED
    ∧ ((PlatoonLeader.next_step failEnvC)^[par.MAX_NOT_DETECTED + 1]
        clStart).state = State.ABORT := by
  have h1 := (fail_run_step 0 clStart fail_run_start).1 (by decide)
  have h2 := (fail_run_step 1 _ h1).1 (by decide)
  have h3 := (fail_run_step 2 _ h2).1 (by decide)
  have h4 := (fail_run_step 3 _ h3).2 (by decide)
  have hit3 : (PlatoonLeader.next_step failEnvC)^[par.MAX_NOT_DETECTED]
      clStart =
      PlatoonLeader.next_step failEnvC (PlatoonLeader.next_step failEnvC
        (PlatoonLeader.next_step failEnvC clStart)) := by
    show (PlatoonLeader.next_step failEnvC)^[3] clStart = _
    rw [Function.iterate_succ_apply, Function.iterate_succ_apply,
      Function.iterate_succ_apply, Function.iterate_zero_apply]
  have hit4 : (PlatoonLeader.next_step failEnvC)^[par.MAX_NOT_DETECTED + 1]
      clStart = PlatoonLeader.next_step failEnvC
        ((PlatoonLeader.next_step failEnvC)^[par.MAX_NOT_DETECTED]
          clStart) := by
    rw [Function.iterate_succ_apply']
  refine ⟨?_, ?_, ?_, ?_⟩
  · intro e s hst hilc hblc hbcb hdir hq hlat hal hbe hmem
    have hstep := changing_lane_step e s hst hilc hblc hbcb hdir hq hlat
      hal hbe hmem
    constructor
    · intro hso
      obtain ⟨hdt2, habort, hrest⟩ := hstep.1 hso
      refine ⟨hdt2, ?_⟩
      by_cases hcmp : s.detection_threshold + 1 > par.MAX_NOT_DETECTED
      · rw [if_pos hcmp]; exact habort hcmp
      · rw [if_neg hcmp]; exact (hrest hcmp).1
    · exact hstep.2
  · rw [hit3]; exact h3.1
  · rw [hit3]; exact h3.2.2.2.2.2.2.2
  · rw [hit4, hit3]; exact h4.1

/-- Witness for `changing_lane_detection_debounce` at the concrete
mid-maneuver leader `clStart`: one failing re-validation tick raises the
counter from 0 to 1 and does not abort. -/
theorem changing_lane_detection_debounce_witness :
    (PlatoonLeader.changing_lane failEnvC clStart).detection_threshold =
      clStart.detection_threshold + 1
    ∧ (PlatoonLeader.changing_lane failEnvC clStart).state =
        (if clStart.detection_threshold + 1 > par.MAX_NOT_DETECTED
         then State.ABORT else State.CHANGING_LANE) :=
  (changing_lane_detection_debounce.1 failEnvC clStart rfl rfl rfl rfl rfl
    rfl rfl rfl rfl rfl).1 rfl

/-! The tick prelude leaves the state-machine control fields unchanged. -/

@[simp] lemma next_step_state (e : Env) (s : PlatoonVehicle) :
    (PlatoonVehicle.next_step e s).state = s.state := by
  simp [PlatoonVehicle.next_step]

@[simp] lemma next_step_in_lane_change (e : Env) (s : PlatoonVehicle) :
    (PlatoonVehicle.next_step e s).in_lane_change = s.in_lane_change := by
  simp [PlatoonVehicle.next_step]

@[simp] lemma next_step_in_change_back (e : Env) (s : PlatoonVehicle) :
    (PlatoonVehicle.next_step e s).in_change_back = s.in_change_back := by
  simp [PlatoonVehicle.next_step]

@[simp] lemma next_step_begin_lane_change (e : Env) (s : PlatoonVehicle) :
    (PlatoonVehicle.next_step e s).begin_lane_change =
      s.begin_lane_change := by
  simp [PlatoonVehicle.next_step]

@[simp] lemma next_step_begin_change_back (e : Env) (s : PlatoonVehicle) :
    (PlatoonVehicle.next_step e s).begin_change_back =
      s.begin_change_back := by
  simp [PlatoonVehicle.next_step]

@[simp] lemma next_step_direction (e : Env) (s : PlatoonVehicle) :
    (PlatoonVehicle.next_step e s).direction = s.direction := by
  simp [PlatoonVehicle.next_step]

@[simp] lemma next_step_backoff (e : Env) (s : PlatoonVehicle) :
    (PlatoonVehicle.next_step e s).backoff = s.backoff := by
  simp [PlatoonVehicle.next_step]

/-- The inductive invariant behind the mutual exclusion of the two maneuver
flags: `in_change_back` is only ever true in state CHANGING_BACK, and then
`in_lane_change` is false. -/
def FlagsOK (s : PlatoonVehicle) : Prop :=
  (s.in_change_back = true → s.state = State.CHANGING_BACK) ∧
  (s.in_change_back = true → s.in_lane_change = false)

lemma flagsOK_of_icb_false {t : PlatoonVehicle}
    (h : t.in_change_back = false) : FlagsOK t := by
  simp [FlagsOK, h]

lemma flagsOK_changing_back_leader (e : Env) (s : PlatoonVehicle)
    (h : FlagsOK s) (hst : s.state = State.CHANGING_BACK) :
    FlagsOK (PlatoonLeader.changing_back e s) := by
  obtain ⟨h1, h2⟩ := h
  unfold FlagsOK
  by_cases hb : s.begin_change_back = true
  · simp [PlatoonLeader.changing_back, PlatoonVehicle.changing_back, hb, hst]
  · by_cases hicb : s.in_change_back = true
    · have hilc := h2 hicb
      by_cases hdone : s.in_new_lane = true ∧ e.is_centered = true
      · simp [PlatoonLeader.changing_back, PlatoonVehicle.changing_back,
          hb, hicb, hdone, hst, hilc]
      · simp [PlatoonLeader.changing_back, PlatoonVehicle.changing_back,
          hb, hicb, hdone, hst, hilc]
    · simp [PlatoonLeader.changing_back, PlatoonVehicle.changing_back,
        hb, hicb, hst]

lemma flagsOK_changing_back_follower (e : Env) (s : PlatoonVehicle)
    (h : FlagsOK s) (hst : s.state = State.CHANGING_BACK) :
    FlagsOK (PlatoonFollower.changing_back e s) := by
  obtain ⟨h1, h2⟩ := h
  unfold FlagsOK
  by_cases hb : s.begin_change_back = true
  · simp [PlatoonFollower.changing_back, PlatoonVehicle.changing_back,
      hb, hst]
  · by_cases hicb : s.in_change_back = true
    · have hilc := h2 hicb
      by_cases hdone : s.in_new_lane = true ∧ e.is_centered = true
      · simp [PlatoonFollower.changing_back, PlatoonVehicle.changing_back,
          hb, hicb, hdone, hst, hilc]
      · simp [PlatoonFollower.changing_back, PlatoonVehicle.changing_back,
          hb, hicb, hdone, hst, hilc]
    · simp [PlatoonFollower.changing_back, PlatoonVehicle.changing_back,
        hb, hicb, hst]

lemma flagsOK_dispatch_leader (e : Env) (s : PlatoonVehicle)
    (h : FlagsOK s) : FlagsOK (PlatoonLeader.dispatch e s) := by
  by_cases hcb : s.state = State.CHANGING_BACK
  · have hd : PlatoonLeader.dispatch e s = PlatoonLeader.changing_back e s :=
      by rw [PlatoonLeader.dispatch.eq_def, hcb]
    rw [hd]
    exact flagsOK_changing_back_leader e s h hcb
  · have hicb : s.in_change_back = false := by
      cases hic : s.in_change_back
      · rfl
      · exact absurd (h.1 hic) hcb
    apply flagsOK_of_icb_false
    rw [PlatoonLeader.dispatch.eq_def]
    cases hst : s.state <;> simp_all

lemma flagsOK_dispatch_follower (e : Env) (s : PlatoonVehicle)
    (h : FlagsOK s) : FlagsOK (PlatoonFollower.dispatch e s) := by
  by_cases hcb : s.state = State.CHANGING_BACK
  · have hd : PlatoonFollower.dispatch e s =
        PlatoonFollower.changing_back e s := by
      rw [PlatoonFollower.dispatch.eq_def, hcb]
    rw [hd]
    exact flagsOK_changing_back_follower e s h hcb
  · have hicb : s.in_change_back = false := by
      cases hic : s.in_change_back
      · rfl
      · exact absurd (h.1 hic) hcb
    apply flagsOK_of_icb_false
    rw [PlatoonFollower.dispatch.eq_def]
    cases hst : s.state <;> simp_all

lemma flagsOK_next_step (e : Env) (s : PlatoonVehicle) (h : FlagsOK s) :
    FlagsOK (PlatoonVehicle.next_step e s) := by
  simpa [FlagsOK] using h

lemma reach_flagsOK : ∀ s, Reach s → FlagsOK s := by
  intro s h
  induction h with
  | init v c fs l => simp [FlagsOK, PlatoonVehicle.init]
  | tickLeader e s _ ih =>
      exact flagsOK_dispatch_leader e _ (flagsOK_next_step e s ih)
  | tickFollower e s _ ih =>
      exact flagsOK_dispatch_follower e _ (flagsOK_next_step e s ih)
  | deliver s env _ ih => simpa [FlagsOK] using ih

lemma ilc_changing_back_leader (e : Env) (s : PlatoonVehicle)
    (hilc : s.in_lane_change = false) :
    (PlatoonLeader.changing_back e s).in_lane_change = false := by
  simp [PlatoonLeader.changing_back, PlatoonVehicle.changing_back, hilc]

lemma ilc_changing_back_follower (e : Env) (s : PlatoonVehicle)
    (hilc : s.in_lane_change = false) :
    (PlatoonFollower.changing_back e s).in_lane_change = false := by
  simp [PlatoonFollower.changing_back, PlatoonVehicle.changing_back, hilc]

/-- C2: in every reachable agent state (leader or follower, under arbitrary
tick sequences and message deliveries), `in_lane_change` and
`in_change_back` are never both true; the tick that begins a change-back
sets `in_change_back` true and `in_lane_change` false together; and a tick
can only leave `in_lane_change` true when `in_change_back` was already
false beforehand (a tick from a change-back state never starts a lane
change). -/
theorem lane_flags_mutually_exclusive :
    (∀ s, Reach s → ¬ (s.in_lane_change = true ∧ s.in_change_back = true))
    ∧ (∀ (e : Env) (s : PlatoonVehicle), s.begin_change_back = true →
        (PlatoonVehicle.changing_back e s).in_change_back = true ∧
        (PlatoonVehicle.changing_back e s).in_lane_change = false)
    ∧ (∀ (e : Env) (s : PlatoonVehicle), Reach s →
        s.in_change_back = true →
        (PlatoonLeader.next_step e s).in_lane_change = false ∧
        (PlatoonFollower.next_step e s).in_lane_change = false)
    ∧ (∀ (e : Env) (s : PlatoonVehicle), Reach s →
        (PlatoonLeader.next_step e s).in_lane_change = true →
        s.in_change_back = false) := by
  have key : ∀ (e : Env) (s : PlatoonVehicle), Reach s →
      s.in_change_back = true →
      (PlatoonLeader.next_step e s).in_lane_change = false ∧
      (PlatoonFollower.next_step e s).in_lane_change = false := by
    intro e s hr hicb
    have hOK := reach_flagsOK s hr
    have hst : s.state = State.CHANGING_BACK := hOK.1 hicb
    have hilc : s.in_lane_change = false := hOK.2 hicb
    constructor
    · show (PlatoonLeader.dispatch e (PlatoonVehicle.next_step e
        s)).in_lane_change = false
      have hd : PlatoonLeader.dispatch e (PlatoonVehicle.next_step e s) =
          PlatoonLeader.changing_back e (PlatoonVehicle.next_step e s) := by
        rw [PlatoonLeader.dispatch.eq_def, next_step_state, hst]
      rw [hd]
      exact ilc_changing_back_leader e _ (by simp [hilc])
    · show (PlatoonFollower.dispatch e (PlatoonVehicle.next_step e
        s)).in_lane_change = false
      have hd : PlatoonFollower.dispatch e (PlatoonVehicle.next_step e s) =
          PlatoonFollower.changing_back e (PlatoonVehicle.next_step e s) := by
        rw [PlatoonFollower.dispatch.eq_def, next_step_state, hst]
      rw [hd]
      exact ilc_changing_back_follower e _ (by simp [hilc])
  refine ⟨?_, ?_, key, ?_⟩
  · intro s hr ⟨hilc, hicb⟩
    have hOK := reach_flagsOK s hr
    rw [hOK.2 hicb] at hilc
    exact Bool.false_ne_true hilc
  · intro e s hb
    simp [PlatoonVehicle.changing_back, hb]
  · intro e s hr hilc
    cases hic : s.in_change_back
    · rfl
    · rw [(key e s hr hic).1] at hilc
      exact absurd hilc (by decide)

/-- Witness for `lane_flags_mutually_exclusive`: the fresh leader state is
reachable and never has both flags set; a pending change-back begins with
`in_change_back` true and `in_lane_change` false. -/
theorem lane_flags_mutually_exclusive_witness :
    ¬ ((PlatoonVehicle.init "L" (C2X.mk [] [] 0) ["F"] "").in_lane_change =
          true ∧
        (PlatoonVehicle.init "L" (C2X.mk [] [] 0) ["F"]
          "").in_change_back = true) ∧
    ((PlatoonVehicle.changing_back sampleEnv
        { PlatoonVehicle.init "F" (C2X.mk [] [] 0) [] "L" with
          begin_change_back := true }).in_change_back = true ∧
      (PlatoonVehicle.changing_back sampleEnv
        { PlatoonVehicle.init "F" (C2X.mk [] [] 0) [] "L" with
          begin_change_back := true }).in_lane_change = false) :=
  ⟨lane_flags_mutually_exclusive.1 _ (Reach.init "L" (C2X.mk [] [] 0) ["F"]
      ""),
    lane_flags_mutually_exclusive.2.1 sampleEnv
      { PlatoonVehicle.init "F" (C2X.mk [] [] 0) [] "L" with
        begin_change_back := true } rfl⟩

lemma backoff_lane_change_safe_eq (e : Env) (t : PlatoonVehicle) :
    (PlatoonLeader.lane_change_safe e t).backoff = par.MIN_BACKOFF := by
  simp [PlatoonLeader.lane_change_safe]

lemma backoff_lane_change_aborted_eq (t : PlatoonVehicle) :
    (PlatoonLeader.lane_change_aborted t).backoff =
      (if t.direction = Direction.LEFT then
        (if t.backoff < par.MAX_BACKOFF then t.backoff + 1 else t.backoff)
       else t.backoff) := by
  by_cases hdir : t.direction = Direction.LEFT <;>
    by_cases hlt : t.backoff < par.MAX_BACKOFF <;>
      simp [PlatoonLeader.lane_change_aborted,
        PlatoonLeader.set_backoff_timer, hdir, hlt]

lemma timer_lane_change_aborted_eq (t : PlatoonVehicle)
    (hdir : t.direction = Direction.LEFT) :
    (PlatoonLeader.lane_change_aborted t).timer = (2 : Int) ^ t.backoff := by
  by_cases hlt : t.backoff < par.MAX_BACKOFF <;>
    simp [PlatoonLeader.lane_change_aborted,
      PlatoonLeader.set_backoff_timer, hdir, hlt]

@[simp] lemma backoff_fol_changing_back (e : Env) (t : PlatoonVehicle) :
    (PlatoonFollower.changing_back e t).backoff = t.backoff := by
  simp [PlatoonFollower.changing_back, PlatoonVehicle.changing_back]

lemma backoff_dispatch_leader (e : Env) (s : PlatoonVehicle) :
    (s.state ≠ State.LANE_CHANGE_SAFE →
      s.state ≠ State.LANE_CHANGE_ABORTED →
      (PlatoonLeader.dispatch e s).backoff = s.backoff)
    ∧ (s.state = State.LANE_CHANGE_SAFE →
      (PlatoonLeader.dispatch e s).backoff = par.MIN_BACKOFF)
    ∧ (s.state = State.LANE_CHANGE_ABORTED →
      (PlatoonLeader.dispatch e s).backoff =
        (if s.direction = Direction.LEFT then
          (if s.backoff < par.MAX_BACKOFF then s.backoff + 1 else s.backoff)
         else s.backoff)
      ∧ (s.direction = Direction.LEFT →
        (PlatoonLeader.dispatch e s).timer = (2 : Int) ^ s.backoff)) := by
  refine ⟨?_, ?_, ?_⟩
  · intro h1 h2
    rw [PlatoonLeader.dispatch.eq_def]
    cases hst : s.state <;> simp_all
  · intro h1
    rw [PlatoonLeader.dispatch.eq_def, h1]
    exact backoff_lane_change_safe_eq e s
  · intro h1
    rw [PlatoonLeader.dispatch.eq_def, h1]
    exact ⟨backoff_lane_change_aborted_eq s,
      fun hdir => timer_lane_change_aborted_eq s hdir⟩

lemma backoff_dispatch_follower (e : Env) (s : PlatoonVehicle) :
    (PlatoonFollower.dispatch e s).backoff = s.backoff := by
  rw [PlatoonFollower.dispatch.eq_def]
  cases hst : s.state <;> simp_all

lemma reach_backoff_bounds : ∀ s, Reach s →
    par.MIN_BACKOFF ≤ s.backoff ∧ s.backoff ≤ par.MAX_BACKOFF := by
  intro s h
  induction h with
  | init v c fs l =>
    have hb : (PlatoonVehicle.init v c fs l).backoff = par.MIN_BACKOFF := rfl
    rw [hb]
    exact ⟨le_refl _, by decide⟩
  | tickLeader e s _ ih =>
    show par.MIN_BACKOFF ≤ (PlatoonLeader.dispatch e
          (PlatoonVehicle.next_step e s)).backoff ∧
        (PlatoonLeader.dispatch e
          (PlatoonVehicle.next_step e s)).backoff ≤ par.MAX_BACKOFF
    have hb := backoff_dispatch_leader e (PlatoonVehicle.next_step e s)
    by_cases h1 : (PlatoonVehicle.next_step e s).state =
        State.LANE_CHANGE_SAFE
    · rw [hb.2.1 h1]
      exact ⟨le_refl _, by decide⟩
    · by_cases h2 : (PlatoonVehicle.next_step e s).state =
          State.LANE_CHANGE_ABORTED
      · rw [(hb.2.2 h2).1, next_step_backoff]
        split_ifs with hd hlt
        · omega
        · exact ih
        · exact ih
      · rw [hb.1 h1 h2, next_step_backoff]
        exact ih
  | tickFollower e s _ ih =>
    show par.MIN_BACKOFF ≤ (PlatoonFollower.dispatch e
          (PlatoonVehicle.next_step e s)).backoff ∧
        (PlatoonFollower.dispatch e
          (PlatoonVehicle.next_step e s)).backoff ≤ par.MAX_BACKOFF
    rw [backoff_dispatch_follower, next_step_backoff]
    exact ih
  | deliver s env _ ih => simpa using ih

/-- C5: the leader's backoff exponent starts at `MIN_BACKOFF`; on every
reachable state `MIN_BACKOFF ≤ backoff ≤ MAX_BACKOFF`; a tick from any state
other than LANE_CHANGE_SAFE never decreases it; a LEFT-direction pass
through LANE_CHANGE_ABORTED arms the timer with `2 ^ backoff` ticks and
increments the exponent exactly when it is strictly below `MAX_BACKOFF`;
and the tick leaving LANE_CHANGE_SAFE resets it to `MIN_BACKOFF`. -/
theorem backoff_policy :
    (∀ (v : String) (c : C2X) (fs : List String) (l : String),
      (PlatoonVehicle.init v c fs l).backoff = par.MIN_BACKOFF)
    ∧ (∀ s, Reach s →
        par.MIN_BACKOFF ≤ s.backoff ∧ s.backoff ≤ par.MAX_BACKOFF)
    ∧ (∀ (e : Env) (s : PlatoonVehicle), s.state ≠ State.LANE_CHANGE_SAFE →
        s.backoff ≤ (PlatoonLeader.next_step e s).backoff)
    ∧ (∀ (e : Env) (s : PlatoonVehicle), s.state = State.LANE_CHANGE_SAFE →
        (PlatoonLeader.next_step e s).backoff = par.MIN_BACKOFF)
    ∧ (∀ (e : Env) (s : PlatoonVehicle),
        s.state = State.LANE_CHANGE_ABORTED →
        s.direction = Direction.LEFT →
        (PlatoonLeader.next_step e s).timer = (2 : Int) ^ s.backoff
        ∧ (PlatoonLeader.next_step e s).backoff =
            (if s.backoff < par.MAX_BACKOFF then s.backoff + 1
             else s.backoff)) := by
  refine ⟨?_, reach_backoff_bounds, ?_, ?_, ?_⟩
  · intro v c fs l
    rfl
  · intro e s h1
    show s.backoff ≤
      (PlatoonLeader.dispatch e (PlatoonVehicle.next_step e s)).backoff
    have hb := backoff_dispatch_leader e (PlatoonVehicle.next_step e s)
    have hns : (PlatoonVehicle.next_step e s).state = s.state :=
      next_step_state e s
    by_cases h2 : (PlatoonVehicle.next_step e s).state =
        State.LANE_CHANGE_ABORTED
    · rw [(hb.2.2 h2).1, next_step_backoff]
      split_ifs <;> omega
    · rw [hb.1 (by rw [hns]; exact h1) h2, next_step_backoff]
  · intro e s h1
    show (PlatoonLeader.dispatch e
        (PlatoonVehicle.next_step e s)).backoff = par.MIN_BACKOFF
    exact (backoff_dispatch_leader e _).2.1 (by rw [next_step_state]; exact h1)
  · intro e s h1 h2
    show (PlatoonLeader.dispatch e
          (PlatoonVehicle.next_step e s)).timer = (2 : Int) ^ s.backoff ∧
        (PlatoonLeader.dispatch e (PlatoonVehicle.next_step e s)).backoff =
          (if s.backoff < par.MAX_BACKOFF then s.backoff + 1 else s.backoff)
    have hb := (backoff_dispatch_leader e (PlatoonVehicle.next_step e s)).2.2
      (by rw [next_step_state]; exact h1)
    constructor
    · rw [hb.2 (by rw [next_step_direction]; exact h2), next_step_backoff]
    · rw [hb.1, next_step_direction, next_step_backoff, if_pos h2]

/-- Witness for `backoff_policy`: the fresh leader's backoff is in bounds,
and a tick from LANE_CHANGE_ABORTED with direction LEFT arms the timer with
`2 ^ MIN_BACKOFF` ticks and increments the exponent. -/
theorem backoff_policy_witness :
    (par.MIN_BACKOFF ≤ (PlatoonVehicle.init "L" (C2X.mk [] [] 0) []
        "").backoff ∧
      (PlatoonVehicle.init "L" (C2X.mk [] [] 0) [] "").backoff ≤
        par.MAX_BACKOFF) ∧
    (PlatoonLeader.next_step sampleEnv
      { PlatoonVehicle.init "L" (C2X.mk [] [] 0) [] "" with
        state := State.LANE_CHANGE_ABORTED }).timer =
        (2 : Int) ^ ({ PlatoonVehicle.init "L" (C2X.mk [] [] 0) [] "" with
          state := State.LANE_CHANGE_ABORTED } : PlatoonVehicle).backoff ∧
    (PlatoonLeader.next_step sampleEnv
      { PlatoonVehicle.init "L" (C2X.mk [] [] 0) [] "" with
        state := State.LANE_CHANGE_ABORTED }).backoff =
      (if ({ PlatoonVehicle.init "L" (C2X.mk [] [] 0) [] "" with
          state := State.LANE_CHANGE_ABORTED } : PlatoonVehicle).backoff <
          par.MAX_BACKOFF then
        ({ PlatoonVehicle.init "L" (C2X.mk [] [] 0) [] "" with
          state := State.LANE_CHANGE_ABORTED } : PlatoonVehicle).backoff + 1
       else
        ({ PlatoonVehicle.init "L" (C2X.mk [] [] 0) [] "" with
          state := State.LANE_CHANGE_ABORTED } : PlatoonVehicle).backoff) :=
  ⟨backoff_policy.2.1 _ (Reach.init "L" (C2X.mk [] [] 0) [] ""),
    (backoff_policy.2.2.2.2 sampleEnv
      { PlatoonVehicle.init "L" (C2X.mk [] [] 0) [] "" with
        state := State.LANE_CHANGE_ABORTED } rfl rfl).1,
    (backoff_policy.2.2.2.2 sampleEnv
      { PlatoonVehicle.init "L" (C2X.mk [] [] 0) [] "" with
        state := State.LANE_CHANGE_ABORTED } rfl rfl).2⟩

end Coop
